import Mathlib

/-!
Verification of the manifest-transformation engine of the k8s-tooling
repository (src/rerun_job.py and src/sts_resizer.py).

A fetched resource descriptor is a YAML document: a nested mapping of
string keys to heterogeneous values.  We embed it as the inductive type
`Val`; a mapping is an insertion-ordered association list (Python dicts
preserve insertion order and have unique keys).  Mapping operations are
embedded so that, on key-unique mappings, they agree with Python's
`d[k]`, `d.pop(k, None)`, `d[k] = v`, `k in d` and `d.get(k, default)`.

Fallible code paths (KeyError, TypeError, ValueError) are embedded with
`Except PyErr`.  The two sanitizers of sts_resizer.py are total on
mapping-shaped input in the source; they are embedded as total functions
that leave nodes of unexpected shape untouched (the script would raise
there), and every theorem about them restricts to descriptors whose
navigated nodes have the schema shape, where the embedding and the
script agree exactly.
-/

set_option autoImplicit false

namespace K8s

/-- A YAML/JSON-like document node: string, integer, boolean, null,
sequence, or string-keyed mapping (insertion-ordered association list). -/
inductive Val where
  | str  : String → Val
  | int  : Int → Val
  | bool : Bool → Val
  | null : Val
  | arr  : List Val → Val
  | obj  : List (String × Val) → Val

/-- A mapping node's underlying association list. -/
abbrev Obj := List (String × Val)

/-- Python `k in d` on a dict. -/
def hasKey (m : Obj) (k : String) : Bool :=
  m.any (fun p => p.1 == k)

/-- Python `d[k]` / `d.get(k)` on a dict: the value at key `k`, if present. -/
def getO (m : Obj) (k : String) : Option Val :=
  (m.find? (fun p => p.1 == k)).map (fun p => p.2)

/-- Python `d.pop(k, None)`: remove key `k` (on a key-unique dict this
removes the single occurrence; here, every occurrence). -/
def popO (m : Obj) (k : String) : Obj :=
  m.filter (fun p => !(p.1 == k))

/-- Python `d[k] = v`: replace the value at the first occurrence of `k`
keeping its position, or append the pair when the key is absent. -/
def setO : Obj → String → Val → Obj
  | [], k, v => [(k, v)]
  | p :: rest, k, v => if p.1 == k then (k, v) :: rest else p :: setO rest k v

/-! ### Basic lemmas about the mapping primitives -/

theorem getO_nil (k : String) : getO [] k = none := rfl

theorem getO_cons (p : String × Val) (m : Obj) (k : String) :
    getO (p :: m) k = if p.1 = k then some p.2 else getO m k := by
  by_cases h : p.1 = k <;> simp [getO, List.find?_cons, h]

theorem hasKey_cons (p : String × Val) (m : Obj) (k : String) :
    hasKey (p :: m) k = (p.1 == k || hasKey m k) := by
  simp [hasKey]

theorem popO_cons (p : String × Val) (m : Obj) (k : String) :
    popO (p :: m) k = if p.1 = k then popO m k else p :: popO m k := by
  by_cases h : p.1 = k <;> simp [popO, List.filter_cons, h]

theorem setO_cons (p : String × Val) (m : Obj) (k : String) (v : Val) :
    setO (p :: m) k v = if p.1 = k then (k, v) :: m else p :: setO m k v := by
  by_cases h : p.1 = k <;> simp [setO, h]

theorem hasKey_eq_isSome_getO (m : Obj) (k : String) :
    hasKey m k = (getO m k).isSome := by
  induction m with
  | nil => rfl
  | cons p t ih =>
    rw [hasKey_cons, getO_cons]
    by_cases h : p.1 = k <;> simp [h, ih]

theorem getO_popO_self (m : Obj) (k : String) : getO (popO m k) k = none := by
  induction m with
  | nil => rfl
  | cons p t ih =>
    rw [popO_cons]
    by_cases h : p.1 = k
    · simpa [h] using ih
    · rw [if_neg h, getO_cons, if_neg h]; exact ih

theorem getO_popO_ne (m : Obj) (k k' : String) (h : k' ≠ k) :
    getO (popO m k) k' = getO m k' := by
  induction m with
  | nil => rfl
  | cons p t ih =>
    rw [popO_cons, getO_cons]
    by_cases h1 : p.1 = k
    · have h2 : p.1 ≠ k' := by rw [h1]; exact fun hh => h hh.symm
      rw [if_pos h1, if_neg h2, ih]
    · rw [if_neg h1, getO_cons]
      by_cases h2 : p.1 = k' <;> simp [h2, ih]

theorem popO_popO_self (m : Obj) (k : String) : popO (popO m k) k = popO m k := by
  simp [popO, List.filter_filter]

theorem popO_of_getO_eq_none (m : Obj) (k : String) (h : getO m k = none) :
    popO m k = m := by
  induction m with
  | nil => rfl
  | cons p t ih =>
    rw [getO_cons] at h
    by_cases h1 : p.1 = k
    · simp [h1] at h
    · rw [if_neg h1] at h
      rw [popO_cons, if_neg h1, ih h]

theorem getO_setO_self (m : Obj) (k : String) (v : Val) :
    getO (setO m k v) k = some v := by
  induction m with
  | nil => simp [setO, getO_cons]
  | cons p t ih =>
    rw [setO_cons]
    by_cases h : p.1 = k
    · rw [if_pos h, getO_cons]; simp
    · rw [if_neg h, getO_cons, if_neg h]; exact ih

theorem getO_setO_ne (m : Obj) (k k' : String) (v : Val) (h : k' ≠ k) :
    getO (setO m k v) k' = getO m k' := by
  induction m with
  | nil =>
    have hk : k ≠ k' := fun hh => h hh.symm
    simp [setO, getO_cons, hk]
  | cons p t ih =>
    rw [setO_cons]
    by_cases h1 : p.1 = k
    · have h2 : p.1 ≠ k' := by rw [h1]; exact fun hh => h hh.symm
      have hk : k ≠ k' := fun hh => h hh.symm
      rw [if_pos h1, getO_cons, getO_cons, if_neg h2]
      simp [hk]
    · rw [if_neg h1, getO_cons, getO_cons]
      by_cases h2 : p.1 = k' <;> simp [h2, ih]

theorem setO_of_getO_eq_some (m : Obj) (k : String) (v : Val)
    (h : getO m k = some v) : setO m k v = m := by
  induction m with
  | nil => simp [getO] at h
  | cons p t ih =>
    rw [getO_cons] at h
    rw [setO_cons]
    by_cases h1 : p.1 = k
    · rw [if_pos h1] at h ⊢
      cases p with | mk a b =>
        simp only at h1
        cases h1
        simpa using h.symm
    · rw [if_neg h1] at h ⊢
      rw [ih h]

theorem hasKey_setO (m : Obj) (k : String) (v : Val) :
    hasKey (setO m k v) k = true := by
  rw [hasKey_eq_isSome_getO, getO_setO_self]; rfl

theorem hasKey_popO_ne (m : Obj) (k k' : String) (h : k' ≠ k) :
    hasKey (popO m k) k' = hasKey m k' := by
  rw [hasKey_eq_isSome_getO, hasKey_eq_isSome_getO, getO_popO_ne m k k' h]

theorem hasKey_setO_ne (m : Obj) (k k' : String) (v : Val) (h : k' ≠ k) :
    hasKey (setO m k v) k' = hasKey m k' := by
  rw [hasKey_eq_isSome_getO, hasKey_eq_isSome_getO, getO_setO_ne m k k' v h]

/-! ### Python exceptions relevant to the scripts -/

/-- The exceptions the embedded code paths can raise: `KeyError(k)`,
`TypeError` (indexing / membership on a node of the wrong shape), and
`ValueError(msg)`. -/
inductive PyErr where
  | keyError (k : String)
  | typeError
  | valueError (msg : String)
  deriving DecidableEq

/-- Python `d[k]` where the value is then used as a dict: `KeyError` when
absent, `TypeError` when not a mapping. -/
def getObjE (m : Obj) (k : String) : Except PyErr Obj :=
  match getO m k with
  | some (.obj o) => .ok o
  | some _ => .error .typeError
  | none => .error (.keyError k)

/-! ### String helpers used by rerun_job.py -/

/-- Python `c in s` for a single character `c`. -/
def strHasChar (s : String) (c : Char) : Bool :=
  s.data.any (fun a => a == c)

/-- Python `s.split(c)[0]`: the characters before the first occurrence of
`c` (the whole string when `c` is absent). -/
def takeBefore (s : String) (c : Char) : String :=
  String.mk (s.data.takeWhile (fun a => !(a == c)))

/-- Helper for `pySplit`: scan the characters, accumulating the current
token (in reverse); a whitespace character ends the token, and empty
tokens are dropped. -/
def pySplitAux : List Char → List Char → List String
  | [], acc => if acc.isEmpty then [] else [String.mk acc.reverse]
  | c :: rest, acc =>
    if c.isWhitespace then
      if acc.isEmpty then pySplitAux rest []
      else String.mk acc.reverse :: pySplitAux rest []
    else pySplitAux rest (c :: acc)

/-- Python `s.split()` with no argument: the maximal runs of
non-whitespace characters. -/
def pySplit (s : String) : List String :=
  pySplitAux s.data []

/-- Python `s.strip()`: drop leading and trailing whitespace. -/
def pyStrip (s : String) : String :=
  String.mk (((s.data.dropWhile (fun c => c.isWhitespace)).reverse.dropWhile
    (fun c => c.isWhitespace)).reverse)

/-- Python `s.lower()` (over the characters the scripts compare: ASCII). -/
def pyLower (s : String) : String :=
  String.mk (s.data.map Char.toLower)

/-- rerun_job.py, update_job_manifest lines 66-74 (the spec's
`setLatestTag`): split the image on the first `:` and replace everything
after it with `latest`; append `:latest` when there is no `:`. -/
def setLatestTag (img : String) : String :=
  if strHasChar img ':' then takeBefore img ':' ++ ":latest"
  else img ++ ":latest"

/-! ### Environment-variable upsert (rerun_job.py lines 77-105) -/

/-- The `for env_var in env_vars:` search loop (lines 82-85): the first
entry whose `name` equals the requested name, with its index.  An entry
without a `name` key raises `KeyError`; an entry that is not a mapping
raises `TypeError`; a `name` value that is not a string simply compares
unequal to the requested string and the loop continues. -/
def findEnvVar (name : String) : List Val → Nat → Except PyErr (Option (Nat × Obj))
  | [], _ => .ok none
  | .obj e :: rest, i =>
    match getO e "name" with
    | some (.str n) =>
        if n = name then .ok (some (i, e)) else findEnvVar name rest (i + 1)
    | some _ => findEnvVar name rest (i + 1)
    | none => .error (.keyError "name")
  | _ :: _, _ => .error .typeError

/-- rerun_job.py, update_job_manifest lines 77-105 (the spec's
`upsertEnv`), for a container mapping.  `env_vars = container.get('env', [])`;
when the name is found: a current value containing a space is treated as a
token set (append the value with a separating space unless it is already a
token), otherwise the value is replaced wholesale.  When the name is not
found the code executes `container['env'].append(...)`, which raises
`KeyError('env')` if the container has no `env` key.  An `env` value that
is not a sequence raises in every Python path that touches it; it is
embedded as `TypeError`. -/
def upsertEnv (container : Obj) (name value : String) : Except PyErr Obj := do
  let envVars : List Val ←
    match getO container "env" with
    | some (.arr es) => pure es
    | some _ => throw .typeError
    | none => pure []
  match ← findEnvVar name envVars 0 with
  | some (i, e) =>
    match getO e "value" with
    | some (.str cur) =>
      if strHasChar cur ' ' then
        if value ∈ pySplit cur then
          pure container
        else
          let e2 := setO e "value" (.str (cur ++ " " ++ value))
          pure (setO container "env" (.arr (envVars.set i (.obj e2))))
      else
        let e2 := setO e "value" (.str value)
        pure (setO container "env" (.arr (envVars.set i (.obj e2))))
    | some _ => throw .typeError
    | none => throw (.keyError "value")
  | none =>
    match getO container "env" with
    | some (.arr es) =>
        pure (setO container "env"
          (.arr (es ++ [Val.obj [("name", .str name), ("value", .str value)]])))
    | some _ => throw .typeError
    | none => throw (.keyError "env")

/-- Python truthiness of an optional string argument (`None` and `""` are
falsy). -/
def truthy : Option String → Bool
  | none => false
  | some s => !(s == "")

/-- rerun_job.py, update_job_manifest lines 59-105: locate the first
container, rewrite its image tag, and upsert the environment variable when
both name and value were supplied; the mutated container is written back
(in Python this happens by aliasing).  An empty `containers` sequence
raises `ValueError("No containers found in job manifest")`. -/
def mutateJobContainer (m : Obj) (envName envValue : Option String) :
    Except PyErr Obj := do
  let sp ← getObjE m "spec"
  let tpl ← getObjE sp "template"
  let ps ← getObjE tpl "spec"
  let containersV ←
    match getO ps "containers" with
    | some v => pure v
    | none => throw (.keyError "containers")
  match containersV with
  | .arr [] => throw (.valueError "No containers found in job manifest")
  | .arr (c0 :: cs) =>
    match c0 with
    | .obj c =>
      let img ←
        match getO c "image" with
        | some (.str s) => pure s
        | some _ => throw .typeError
        | none => throw (.keyError "image")
      let c1 := setO c "image" (.str (setLatestTag img))
      let c2 ←
        if truthy envName && truthy envValue then
          upsertEnv c1 (envName.getD "") (envValue.getD "")
        else pure c1
      pure (setO m "spec" (.obj (setO sp "template" (.obj (setO tpl "spec"
        (.obj (setO ps "containers" (.arr (Val.obj c2 :: cs)))))))))
    | _ => throw .typeError
  | _ => throw .typeError

/-- rerun_job.py, update_job_manifest lines 107-129: the job-kind sanitize
step.  Guarded by `'metadata' in manifest`: pop `creationTimestamp`,
`resourceVersion`, `uid`, `generation`, `labels` from top-level metadata;
pop `labels` from `spec.template.metadata` (an unguarded access —
`KeyError` when absent); pop `selector` from `spec`; pop the
last-applied-configuration key from top-level metadata's annotations when
an annotations mapping is present (the mapping is kept even if emptied).
Unconditionally pop top-level `status`, `matchLabels` and `selector`. -/
def cleanupJobManifest (m : Obj) : Except PyErr Obj := do
  let m1 ←
    if hasKey m "metadata" then do
      let md ← getObjE m "metadata"
      let md := popO (popO (popO (popO (popO md "creationTimestamp")
        "resourceVersion") "uid") "generation") "labels"
      let m := setO m "metadata" (.obj md)
      let sp ← getObjE m "spec"
      let tpl ← getObjE sp "template"
      let tmd ←
        match getO tpl "metadata" with
        | some (.obj o) => pure o
        | some _ => throw .typeError
        | none => throw (.keyError "metadata")
      let m := setO m "spec" (.obj (setO sp "template"
        (.obj (setO tpl "metadata" (.obj (popO tmd "labels"))))))
      let sp2 ← getObjE m "spec"
      let m := setO m "spec" (.obj (popO sp2 "selector"))
      let md2 ← getObjE m "metadata"
      if hasKey md2 "annotations" then do
        let ann ←
          match getO md2 "annotations" with
          | some (.obj a) => pure a
          | some _ => throw .typeError
          | none => throw (.keyError "annotations")
        pure (setO m "metadata" (.obj (setO md2 "annotations"
          (.obj (popO ann "kubectl.kubernetes.io/last-applied-configuration")))))
      else pure m
    else pure m
  pure (popO (popO (popO m1 "status") "matchLabels") "selector")

/-- rerun_job.py, update_job_manifest (lines 55-130): the container
mutation followed by the sanitize step, on the same manifest. -/
def update_job_manifest (m : Obj) (envName envValue : Option String) :
    Except PyErr Obj :=
  (mutateJobContainer m envName envValue).bind cleanupJobManifest

/-! ### sts_resizer.py: clean_manifest (lines 60-123)

The script first deep-copies the manifest (`yaml.safe_load(yaml.dump(..))`),
so the function is pure; the embedding is pure by construction.  Nodes of
unexpected shape (a non-mapping where the script indexes a mapping) are
left untouched here; the script would raise on them, and every theorem
below restricts to descriptors where the shapes match. -/

/-- sts_resizer.py lines 78-86 and 97-106: pop the three orchestrator
annotations from a metadata mapping's `annotations`, and drop the
`annotations` mapping itself when it becomes empty. -/
def cleanAnnotations (md : Obj) : Obj :=
  match getO md "annotations" with
  | some (.obj ann) =>
    let ann := popO (popO (popO ann
      "kubectl.kubernetes.io/last-applied-configuration")
      "deployment.kubernetes.io/revision") "kubernetes.io/change-cause"
    if ann.isEmpty then popO md "annotations" else setO md "annotations" (.obj ann)
  | _ => md

/-- sts_resizer.py lines 71-75 / 91-95 plus the annotations cleanup: the
five generated fields popped from a metadata mapping. -/
def cleanMetadataFields (md : Obj) : Obj :=
  cleanAnnotations (popO (popO (popO (popO (popO md "creationTimestamp")
    "resourceVersion") "uid") "generation") "managedFields")

/-- sts_resizer.py lines 68-86: the top-level-metadata block of
clean_manifest. -/
def cleanStsMetadataStep (m : Obj) : Obj :=
  match getO m "metadata" with
  | some (.obj md) => setO m "metadata" (.obj (cleanMetadataFields md))
  | _ => m

/-- sts_resizer.py lines 89-106, inner part: the template-metadata cleanup
applied to a `spec` mapping (`.get('metadata', {})` discards the edits
when the template metadata is absent; writing an unchanged `spec` back is
the identity the in-place mutation gives). -/
def tplFix (sp : Obj) : Obj :=
  match getO sp "template" with
  | some (.obj tpl) =>
    match getO tpl "metadata" with
    | some (.obj tmd) =>
      setO sp "template" (.obj (setO tpl "metadata"
        (.obj (cleanMetadataFields tmd))))
    | _ => sp
  | _ => sp

/-- sts_resizer.py lines 89-106: the `spec.template.metadata` block of
clean_manifest. -/
def cleanStsTemplateStep (m : Obj) : Obj :=
  match getO m "spec" with
  | some (.obj sp) => setO m "spec" (.obj (tplFix sp))
  | _ => m

/-- sts_resizer.py lines 111-117: the seven status-mirroring fields popped
from `spec`. -/
def popSpecStatusFields (sp : Obj) : Obj :=
  popO (popO (popO (popO (popO (popO (popO sp
    "currentReplicas") "updatedReplicas") "readyReplicas")
    "availableReplicas") "observedGeneration") "collisionCount")
    "conditions"

/-- sts_resizer.py lines 109-117: the `spec` block of clean_manifest. -/
def cleanStsSpecStep (m : Obj) : Obj :=
  match getO m "spec" with
  | some (.obj sp) => setO m "spec" (.obj (popSpecStatusFields sp))
  | _ => m

/-- sts_resizer.py, clean_manifest (lines 60-123): clean top-level
metadata, then `spec.template.metadata` (when present), then pop the
seven status-mirroring fields from `spec`, then pop top-level
`status`. -/
def clean_manifest (m : Obj) : Obj :=
  popO (cleanStsSpecStep (cleanStsTemplateStep (cleanStsMetadataStep m))) "status"

/-! ### sts_resizer.py: update_persistent_volume_size (lines 126-158) -/

/-- The body of the `for template in volume_claim_templates:` loop (lines
137-143): overwrite `spec.resources.requests.storage` with the new size
when that path exists, leave the entry untouched otherwise. -/
def resizeTemplate (newSize : String) (t : Val) : Val :=
  match t with
  | .obj tov =>
    match getO tov "spec" with
    | some (.obj ts) =>
      match getO ts "resources" with
      | some (.obj res) =>
        match getO res "requests" with
        | some (.obj req) =>
          if hasKey req "storage" then
            .obj (setO tov "spec" (.obj (setO ts "resources"
              (.obj (setO res "requests" (.obj (setO req "storage" (.str newSize))))))))
          else t
        | _ => t
      | _ => t
    | _ => t
  | _ => t

/-- Lines 150-155: an inline volume's `persistentVolumeClaim.claimName`,
when present — the value the script prints as a diagnostic note. -/
def inlineClaimNote (v : Val) : Option Val :=
  match v with
  | .obj vo =>
    match getO vo "persistentVolumeClaim" with
    | some (.obj pvc) => getO pvc "claimName"
    | _ => none
  | _ => none

/-- sts_resizer.py, update_persistent_volume_size (lines 126-158): the
updated manifest (every qualifying volume-claim template's storage set to
`newSize`) together with the diagnostic notes printed for inline
persistent-volume-claim references, which are deliberately not rewritten. -/
def update_persistent_volume_size (m : Obj) (newSize : String) :
    Obj × List Val :=
  let m1 :=
    match getO m "spec" with
    | some (.obj sp) =>
      match getO sp "volumeClaimTemplates" with
      | some (.arr ts) =>
        setO m "spec" (.obj (setO sp "volumeClaimTemplates"
          (.arr (ts.map (resizeTemplate newSize)))))
      | _ => m
    | _ => m
  let notes :=
    match getO m1 "spec" with
    | some (.obj sp) =>
      match getO sp "template" with
      | some (.obj tpl) =>
        match getO tpl "spec" with
        | some (.obj tps) =>
          match getO tps "volumes" with
          | some (.arr vs) => vs.filterMap inlineClaimNote
          | _ => []
        | _ => []
      | _ => []
    | _ => []
  (m1, notes)

/-! ### rerun_job.py: check_job_status (lines 161-189) -/

/-- One status read: the `succeeded`, `failed` and `active` counters
(`status.get(key, 0)`). -/
structure JobStatus where
  succeeded : Nat
  failed : Nat
  active : Nat

/-- Outcome of the polling loop: the job completed, the job failed, or the
timeout ceiling elapsed with no terminal classification (the loop returns
normally — not an error). -/
inductive PollOutcome where
  | completed
  | failed
  | timedOut
  deriving DecidableEq

/-- The polling loop, one step per remaining iteration: read status `i`,
classify `succeeded > 0` as completed, else `failed > 0` as failed, else
sleep and continue.  Returns the outcome and the number of status reads
performed. -/
def pollGo (reads : Nat → JobStatus) (i : Nat) : Nat → PollOutcome × Nat
  | 0 => (.timedOut, i)
  | fuel + 1 =>
    let s := reads i
    if s.succeeded > 0 then (.completed, i + 1)
    else if s.failed > 0 then (.failed, i + 1)
    else pollGo reads (i + 1) fuel

/-- rerun_job.py, check_job_status (lines 161-189): a bounded loop with a
10-second sleep per iteration and ceiling `timeout_minutes * 60` seconds;
iteration `i` starts at elapsed time `10 * i`, so the loop body runs for
`i < 6 * timeout_minutes`, i.e. at most `6 * timeout_minutes` reads. -/
def check_job_status (reads : Nat → JobStatus) (timeoutMinutes : Nat) :
    PollOutcome × Nat :=
  pollGo reads 0 (6 * timeoutMinutes)

/-! ### The two main flows, as remote-call traces

Remote collaborator calls (`kubectl ...`) are recorded as a trace; the
collaborator's responses (the fetched manifest, the pod list, the prompt
answers, the status reads) are parameters.  Local effects — the backup
file write, printing, the temp file for `kubectl apply` — issue no remote
call and are not recorded. -/

/-- One kubectl invocation issued by a run. -/
inductive KCall where
  | get (kind name ns : String)
  | listPods (ns sel : String)
  | delete (kind name ns : String) (cascade : Bool)
  | apply (ns : String)
  | getStatus (kind name ns : String)
  deriving DecidableEq

/-- Whether a call is a destructive delete. -/
def KCall.isDelete : KCall → Bool
  | .delete _ _ _ _ => true
  | _ => false

/-- Whether a call is a create/apply. -/
def KCall.isApply : KCall → Bool
  | .apply _ => true
  | _ => false

/-- Process outcome: exit code 0 (also for a clean cancellation) or a
fatal error. -/
inductive RunResult where
  | ok
  | err
  deriving DecidableEq

/-- What a run did: the remote calls issued in order, the outcome, and the
transformed descriptor it printed (dry run) or submitted, when it got
that far. -/
structure RunOut where
  calls : List KCall
  result : RunResult
  shown : Option Obj

/-- Command-line arguments of rerun_job.py. -/
structure JobArgs where
  jobName : String
  ns : String
  envVarName : Option String
  envVarValue : Option String
  monitor : Bool
  timeoutMinutes : Nat
  dryRun : Bool

/-- rerun_job.py, main (lines 192-249): validate the env-var argument
pair, fetch the job manifest, transform it (any exception aborts with
exit 1), then either stop after printing it (dry run) or delete the job
(cascading — kubectl's default) and apply the new manifest, optionally
polling the status afterwards. -/
def rerun_job_main (a : JobArgs) (fetched : Obj) (reads : Nat → JobStatus) :
    RunOut :=
  if truthy a.envVarName && !truthy a.envVarValue then ⟨[], .err, none⟩
  else if truthy a.envVarValue && !truthy a.envVarName then ⟨[], .err, none⟩
  else
    let t0 : List KCall := [.get "job" a.jobName a.ns]
    match update_job_manifest fetched a.envVarName a.envVarValue with
    | .error _ => ⟨t0, .err, none⟩
    | .ok updated =>
      if a.dryRun then ⟨t0, .ok, some updated⟩
      else
        let t1 := t0 ++ [.delete "job" a.jobName a.ns true, .apply a.ns]
        if a.monitor then
          ⟨t1 ++ (List.range (check_job_status reads a.timeoutMinutes).2).map
            (fun _ => KCall.getStatus "job" a.jobName a.ns), .ok, some updated⟩
        else ⟨t1, .ok, some updated⟩

/-- Command-line arguments of sts_resizer.py. -/
structure StsArgs where
  stsName : String
  ns : String
  dryRun : Bool
  newPvSize : Option String

/-- sts_resizer.py, main (lines 209-289): fetch the StatefulSet manifest,
write the backup (a local file), clean the manifest, list the dependent
pods (a remote call, issued before the dry-run branch), resolve the new
volume size (prompting when the flag is absent), resize, print the result,
then either stop (dry run), stop cleanly on a non-affirmative
confirmation, or delete non-cascading and apply. -/
def sts_main (a : StsArgs) (fetched : Obj) (promptSize : String)
    (confirm : String) : RunOut :=
  let t0 : List KCall := [.get "statefulset" a.stsName a.ns]
  let cleaned := clean_manifest fetched
  let t1 := t0 ++ [.listPods a.ns ("app=" ++ a.stsName)]
  let size : Option String :=
    if truthy a.newPvSize then a.newPvSize
    else if pyStrip promptSize == "" then none else some (pyStrip promptSize)
  let final :=
    match size with
    | some s => (update_persistent_volume_size cleaned s).1
    | none => cleaned
  if a.dryRun then ⟨t1, .ok, some final⟩
  else if pyLower (pyStrip confirm) ≠ "yes" then ⟨t1, .ok, some final⟩
  else ⟨t1 ++ [.delete "statefulset" a.stsName a.ns false, .apply a.ns],
    .ok, some final⟩

/-! ### Helper lemmas about `takeBefore` and `strHasChar` -/

theorem takeWhile_append_stop (p : Char → Bool) (x : Char) (l2 : List Char)
    (hx : p x = false) :
    ∀ l1 : List Char, (∀ c ∈ l1, p c = true) →
      (l1 ++ x :: l2).takeWhile p = l1 := by
  intro l1
  induction l1 with
  | nil => intro _; simp [List.takeWhile, hx]
  | cons c t ih =>
    intro h
    have hc : p c = true := h c (by simp)
    have ht : ∀ d ∈ t, p d = true := fun d hd => h d (by simp [hd])
    simp [List.takeWhile, hc, ih ht]

theorem takeWhile_eq_self_of_all (p : Char → Bool) :
    ∀ l : List Char, (∀ c ∈ l, p c = true) → l.takeWhile p = l := by
  intro l
  induction l with
  | nil => intro _; rfl
  | cons c t ih =>
    intro h
    have hc : p c = true := h c (by simp)
    have ht : ∀ d ∈ t, p d = true := fun d hd => h d (by simp [hd])
    simp [List.takeWhile, hc, ih ht]

theorem mem_takeWhile_sat (p : Char → Bool) :
    ∀ l : List Char, ∀ c ∈ l.takeWhile p, p c = true := by
  intro l
  induction l with
  | nil => intro c hc; simp [List.takeWhile] at hc
  | cons d t ih =>
    intro c hc
    by_cases hd : p d
    · simp [List.takeWhile, hd] at hc
      rcases hc with h | h
      · rw [h]; exact hd
      · exact ih c h
    · simp [List.takeWhile, hd] at hc

theorem strHasChar_of_mem (s : String) (c : Char) (h : c ∈ s.data) :
    strHasChar s c = true := by
  unfold strHasChar
  rw [List.any_eq_true]
  exact ⟨c, h, by simp⟩

theorem strHasChar_eq_false_iff (s : String) (c : Char) :
    strHasChar s c = false ↔ ∀ a ∈ s.data, a ≠ c := by
  simp [strHasChar, List.any_eq_false]

theorem mk_data (s : String) : String.mk s.data = s := rfl

/-- The core fact behind the image mutator: on a string of the shape
`a ++ ":" ++ b` with `a` colon-free (so the first `:` is the displayed
one), the result is `a ++ ":latest"`. -/
theorem setLatestTag_append_colon (a b : String)
    (h : ∀ c ∈ a.data, c ≠ ':') :
    setLatestTag (a ++ ":" ++ b) = a ++ ":latest" := by
  have hdata : (a ++ ":" ++ b).data = a.data ++ ':' :: b.data := by
    rw [String.data_append, String.data_append, List.append_assoc]
    rfl
  have hp : ∀ c ∈ a.data, (!(c == ':')) = true := by
    intro c hc
    simpa using h c hc
  have hcolon : strHasChar (a ++ ":" ++ b) ':' = true := by
    apply strHasChar_of_mem
    rw [hdata]
    simp
  have htake : takeBefore (a ++ ":" ++ b) ':' = a := by
    unfold takeBefore
    rw [hdata, takeWhile_append_stop _ ':' b.data (by simp) a.data hp]
  rw [setLatestTag, hcolon, if_pos rfl, htake]

/-- Claim C8: `setLatestTag` splits the image on the first `:` and, when a
`:` is present, replaces everything after it with the literal `latest`
(stated as: on `a ++ ":" ++ b` with `a` colon-free the result is
`a ++ ":latest"`); when no `:` is present it appends `:latest`.  In
particular `repo:old ↦ repo:latest`, `repo ↦ repo:latest`,
`repo:latest ↦ repo:latest`, and the operation is idempotent on every
image string. -/
theorem c8_setLatestTag_behaviour :
    (∀ a b : String, (∀ c ∈ a.data, c ≠ ':') →
        setLatestTag (a ++ ":" ++ b) = a ++ ":latest")
    ∧ (∀ s : String, (∀ c ∈ s.data, c ≠ ':') → setLatestTag s = s ++ ":latest")
    ∧ setLatestTag "repo:old" = "repo:latest"
    ∧ setLatestTag "repo" = "repo:latest"
    ∧ setLatestTag "repo:latest" = "repo:latest"
    ∧ (∀ s : String, setLatestTag (setLatestTag s) = setLatestTag s) := by
  refine ⟨setLatestTag_append_colon, ?_, by decide, by decide, by decide, ?_⟩
  · intro s h
    have hfalse : strHasChar s ':' = false :=
      (strHasChar_eq_false_iff s ':').mpr h
    rw [setLatestTag, hfalse]
    simp
  · intro s
    by_cases hc : strHasChar s ':' = true
    · have hstep : setLatestTag s = takeBefore s ':' ++ ":latest" := by
        rw [setLatestTag, hc, if_pos rfl]
      have hfree : ∀ c ∈ (takeBefore s ':').data, c ≠ ':' := by
        intro c hmem
        have := mem_takeWhile_sat (fun a => !(a == ':')) s.data c hmem
        simpa using this
      have hsplit : takeBefore s ':' ++ ":latest" =
          takeBefore s ':' ++ ":" ++ "latest" := by
        apply String.ext
        rw [String.data_append, String.data_append, String.data_append,
          List.append_assoc]
        rfl
      rw [hstep, hsplit, setLatestTag_append_colon _ _ hfree]
      exact hsplit
    · have hfalse : strHasChar s ':' = false := by
        cases h2 : strHasChar s ':'
        · rfl
        · exact absurd h2 hc
      have hfree : ∀ c ∈ s.data, c ≠ ':' :=
        (strHasChar_eq_false_iff s ':').mp hfalse
      have hstep : setLatestTag s = s ++ ":latest" := by
        rw [setLatestTag, hfalse]; simp
      have hsplit : s ++ ":latest" = s ++ ":" ++ "latest" := by
        apply String.ext
        rw [String.data_append, String.data_append, String.data_append,
          List.append_assoc]
        rfl
      rw [hstep, hsplit, setLatestTag_append_colon _ _ hfree]
      exact hsplit

/-- Witness for C8 at concrete inputs, discharging each hypothesis. -/
theorem c8_witness :
    setLatestTag ("repo" ++ ":" ++ "old") = "repo" ++ ":latest" ∧
    setLatestTag "repo" = "repo" ++ ":latest" := by
  exact ⟨c8_setLatestTag_behaviour.1 "repo" "old" (by decide),
    c8_setLatestTag_behaviour.2.1 "repo" (by decide)⟩

/-! ### Helper lemmas about the polling loop -/

theorem pollGo_completed (reads : Nat → JobStatus) :
    ∀ fuel i k, k < fuel →
      (∀ j, j < k → (reads (i + j)).succeeded = 0 ∧ (reads (i + j)).failed = 0) →
      0 < (reads (i + k)).succeeded →
      pollGo reads i fuel = (.completed, i + k + 1) := by
  intro fuel
  induction fuel with
  | zero => intro i k hk; omega
  | succ n ih =>
    intro i k hk hpre hsucc
    cases k with
    | zero =>
      have : 0 < (reads i).succeeded := by simpa using hsucc
      simp [pollGo, this]
    | succ k' =>
      have h0 : (reads i).succeeded = 0 ∧ (reads i).failed = 0 := by
        have := hpre 0 (Nat.succ_pos k')
        simpa using this
      have hpre' : ∀ j, j < k' →
          (reads (i + 1 + j)).succeeded = 0 ∧ (reads (i + 1 + j)).failed = 0 := by
        intro j hj
        have := hpre (j + 1) (by omega)
        have harith : i + (j + 1) = i + 1 + j := by omega
        rwa [harith] at this
      have hsucc' : 0 < (reads (i + 1 + k')).succeeded := by
        have harith : i + (k' + 1) = i + 1 + k' := by omega
        rwa [harith] at hsucc
      have hrec := ih (i + 1) k' (by omega) hpre' hsucc'
      have harith : i + 1 + k' + 1 = i + (k' + 1) + 1 := by omega
      simp [pollGo, h0.1, h0.2]
      rw [hrec, harith]

theorem pollGo_failed (reads : Nat → JobStatus) :
    ∀ fuel i k, k < fuel →
      (∀ j, j < k → (reads (i + j)).succeeded = 0 ∧ (reads (i + j)).failed = 0) →
      (reads (i + k)).succeeded = 0 → 0 < (reads (i + k)).failed →
      pollGo reads i fuel = (.failed, i + k + 1) := by
  intro fuel
  induction fuel with
  | zero => intro i k hk; omega
  | succ n ih =>
    intro i k hk hpre hsucc hfail
    cases k with
    | zero =>
      have h1 : (reads i).succeeded = 0 := by simpa using hsucc
      have h2 : 0 < (reads i).failed := by simpa using hfail
      simp [pollGo, h1, h2]
    | succ k' =>
      have h0 : (reads i).succeeded = 0 ∧ (reads i).failed = 0 := by
        have := hpre 0 (Nat.succ_pos k')
        simpa using this
      have hpre' : ∀ j, j < k' →
          (reads (i + 1 + j)).succeeded = 0 ∧ (reads (i + 1 + j)).failed = 0 := by
        intro j hj
        have := hpre (j + 1) (by omega)
        have harith : i + (j + 1) = i + 1 + j := by omega
        rwa [harith] at this
      have harith : i + (k' + 1) = i + 1 + k' := by omega
      have hsucc' : (reads (i + 1 + k')).succeeded = 0 := by rwa [harith] at hsucc
      have hfail' : 0 < (reads (i + 1 + k')).failed := by rwa [harith] at hfail
      have hrec := ih (i + 1) k' (by omega) hpre' hsucc' hfail'
      have harith2 : i + 1 + k' + 1 = i + (k' + 1) + 1 := by omega
      simp [pollGo, h0.1, h0.2]
      rw [hrec, harith2]

theorem pollGo_timeout (reads : Nat → JobStatus) :
    ∀ fuel i,
      (∀ j, j < fuel → (reads (i + j)).succeeded = 0 ∧ (reads (i + j)).failed = 0) →
      pollGo reads i fuel = (.timedOut, i + fuel) := by
  intro fuel
  induction fuel with
  | zero => intro i _; rfl
  | succ n ih =>
    intro i hpre
    have h0 : (reads i).succeeded = 0 ∧ (reads i).failed = 0 := by
      have := hpre 0 (Nat.succ_pos n)
      simpa using this
    have hpre' : ∀ j, j < n →
        (reads (i + 1 + j)).succeeded = 0 ∧ (reads (i + 1 + j)).failed = 0 := by
      intro j hj
      have := hpre (j + 1) (by omega)
      have harith : i + (j + 1) = i + 1 + j := by omega
      rwa [harith] at this
    have harith : i + 1 + n = i + (n + 1) := by omega
    simp [pollGo, h0.1, h0.2]
    rw [ih (i + 1) hpre', harith]

theorem pollGo_count_le (reads : Nat → JobStatus) :
    ∀ fuel i, (pollGo reads i fuel).2 ≤ i + fuel := by
  intro fuel
  induction fuel with
  | zero => intro i; simp [pollGo]
  | succ n ih =>
    intro i
    rw [pollGo]
    by_cases h1 : 0 < (reads i).succeeded
    · simp only [h1, if_pos]
      omega
    · by_cases h2 : 0 < (reads i).failed
      · simp only [h1, h2, if_pos, if_neg, ite_false, ite_true]
        omega
      · simp only [h1, h2, ite_false, if_neg]
        have := ih (i + 1)
        omega

end K8s

namespace K8s

/-- The reading sequence of the spec's poller example:
read 0 is `{succeeded 0, failed 0, active 0}`, every later read is
`{succeeded 1, failed 0, active 0}`. -/
def exampleReads : Nat → JobStatus :=
  fun i => if i = 0 then ⟨0, 0, 0⟩ else ⟨1, 0, 0⟩

/-- Claim C10: the poller performs one status read per iteration, at most
`6 * timeoutMinutes` of them (one per 10-second interval inside the
`timeoutMinutes * 60`-second ceiling); it terminates as completed on the
first read with positive succeeded count, as failed on the first read with
positive failed count (the code tests succeeded first), and reports a
timeout — a normal return, not an error — when every read inside the
ceiling is non-terminal.  On the read sequence {0,0,0},{1,0,0} it stops
after the second read, classified completed. -/
theorem c10_poller_behaviour :
    (∀ (reads : Nat → JobStatus) (tm i : Nat), i < 6 * tm →
      (∀ j, j < i → (reads j).succeeded = 0 ∧ (reads j).failed = 0) →
      0 < (reads i).succeeded →
      check_job_status reads tm = (.completed, i + 1))
    ∧ (∀ (reads : Nat → JobStatus) (tm i : Nat), i < 6 * tm →
      (∀ j, j < i → (reads j).succeeded = 0 ∧ (reads j).failed = 0) →
      (reads i).succeeded = 0 → 0 < (reads i).failed →
      check_job_status reads tm = (.failed, i + 1))
    ∧ (∀ (reads : Nat → JobStatus) (tm : Nat),
      (∀ j, j < 6 * tm → (reads j).succeeded = 0 ∧ (reads j).failed = 0) →
      check_job_status reads tm = (.timedOut, 6 * tm))
    ∧ (∀ (reads : Nat → JobStatus) (tm : Nat),
      (check_job_status reads tm).2 ≤ 6 * tm)
    ∧ check_job_status exampleReads 1 = (.completed, 2) := by
  refine ⟨?_, ?_, ?_, ?_, rfl⟩
  · intro reads tm i hi hpre hsucc
    have := pollGo_completed reads (6 * tm) 0 i hi
      (by intro j hj; simpa using hpre j hj) (by simpa using hsucc)
    simpa [check_job_status] using this
  · intro reads tm i hi hpre hsucc hfail
    have := pollGo_failed reads (6 * tm) 0 i hi
      (by intro j hj; simpa using hpre j hj) (by simpa using hsucc)
      (by simpa using hfail)
    simpa [check_job_status] using this
  · intro reads tm hpre
    have := pollGo_timeout reads (6 * tm) 0
      (by intro j hj; simpa using hpre j hj)
    simpa [check_job_status] using this
  · intro reads tm
    have := pollGo_count_le reads (6 * tm) 0
    simpa [check_job_status] using this

/-- Witness for C10, discharging the hypotheses at the concrete example
read sequence. -/
theorem c10_witness : check_job_status exampleReads 1 = (.completed, 2) := by
  exact c10_poller_behaviour.1 exampleReads 1 1 (by omega)
    (by
      intro j hj
      have hj0 : j = 0 := by omega
      subst hj0
      exact ⟨rfl, rfl⟩)
    (by simp [exampleReads])

end K8s

namespace K8s

/-- A well-formed job manifest whose only container carries no `env`
sequence — the failing input for the env-upsert-on-absent-sequence
behaviour. -/
def noEnvManifest : Obj :=
  [("apiVersion", .str "batch/v1"),
   ("kind", .str "Job"),
   ("metadata", .obj [("name", .str "myjob")]),
   ("spec", .obj [
      ("template", .obj [("metadata", .obj []),
        ("spec", .obj [("containers", .arr [.obj [("image", .str "img:v1")]])])])])]

/-- Claim C3 (code bug): on a container with no `env` key and a name
absent from the (empty) env sequence, the upsert does not create the
sequence — `container['env'].append(...)` raises `KeyError('env')`, and
the whole transform aborts with that error. -/
theorem c3_upsert_absent_env_keyerror :
    upsertEnv [("image", .str "img:v1")] "X" "1" = .error (.keyError "env")
    ∧ update_job_manifest noEnvManifest (some "X") (some "1") =
        .error (.keyError "env")
    ∧ upsertEnv [("image", .str "img:v1"), ("env", .arr [])] "X" "1" =
        .ok [("image", .str "img:v1"),
             ("env", .arr [.obj [("name", .str "X"), ("value", .str "1")]])] :=
  ⟨rfl, rfl, rfl⟩

/-! ### Helper lemmas about `pySplit` (for the env token-set branch) -/

theorem pySplitAux_all_nonws : ∀ (l acc : List Char),
    (∀ c ∈ l, c.isWhitespace = false) →
    pySplitAux l acc =
      if acc.isEmpty && l.isEmpty then [] else [String.mk (acc.reverse ++ l)] := by
  intro l
  induction l with
  | nil =>
    intro acc _
    cases acc with
    | nil => rfl
    | cons a t => simp [pySplitAux]
  | cons c t ih =>
    intro acc h
    have hc : c.isWhitespace = false := h c (by simp)
    have ht : ∀ d ∈ t, d.isWhitespace = false := fun d hd => h d (by simp [hd])
    rw [pySplitAux, if_neg (by simp [hc])]
    rw [ih (c :: acc) ht]
    simp

theorem pySplitAux_append_sep (b : List Char) : ∀ (l acc : List Char),
    ∃ pre, pySplitAux (l ++ ' ' :: b) acc = pre ++ pySplitAux b [] := by
  intro l
  induction l with
  | nil =>
    intro acc
    cases acc with
    | nil => exact ⟨[], by simp [pySplitAux]⟩
    | cons a t =>
      refine ⟨[String.mk (a :: t).reverse], ?_⟩
      simp [pySplitAux]
  | cons c t ih =>
    intro acc
    by_cases hc : c.isWhitespace
    · cases acc with
      | nil =>
        obtain ⟨pre, hpre⟩ := ih []
        exact ⟨pre, by simpa [pySplitAux, hc] using hpre⟩
      | cons a s =>
        obtain ⟨pre, hpre⟩ := ih []
        refine ⟨String.mk (a :: s).reverse :: pre, ?_⟩
        simp [pySplitAux, hc, hpre]
    · obtain ⟨pre, hpre⟩ := ih (c :: acc)
      exact ⟨pre, by simpa [pySplitAux, hc] using hpre⟩

theorem data_ne_nil_of_ne_empty (s : String) (h : s ≠ "") : s.data ≠ [] := by
  intro hdata
  exact h (String.ext hdata)

theorem mem_pySplit_append_self (cur value : String)
    (hws : ∀ c ∈ value.data, c.isWhitespace = false) (hne : value ≠ "") :
    value ∈ pySplit (cur ++ " " ++ value) := by
  have hdata : (cur ++ " " ++ value).data = cur.data ++ ' ' :: value.data := by
    rw [String.data_append, String.data_append, List.append_assoc]
    rfl
  unfold pySplit
  rw [hdata]
  obtain ⟨pre, hpre⟩ := pySplitAux_append_sep value.data cur.data []
  rw [hpre]
  rw [pySplitAux_all_nonws value.data [] hws]
  rw [if_neg]
  · simp [mk_data]
  · simp [List.isEmpty_iff, data_ne_nil_of_ne_empty value hne]

/-! ### Helper lemmas about `findEnvVar` -/

theorem findEnvVar_start_le (name : String) :
    ∀ (envs : List Val) (s i : Nat) (e : Obj),
      findEnvVar name envs s = .ok (some (i, e)) → s ≤ i := by
  intro envs
  induction envs with
  | nil => intro s i e h; simp [findEnvVar] at h
  | cons x t ih =>
    intro s i e h
    cases x with
    | obj eo =>
      rw [findEnvVar] at h
      split at h
      · split at h
        · simp only [Except.ok.injEq, Option.some.injEq, Prod.mk.injEq] at h
          omega
        · have := ih (s + 1) i e h; omega
      · have := ih (s + 1) i e h; omega
      · exact absurd h (by simp)
    | str v => simp [findEnvVar] at h
    | int v => simp [findEnvVar] at h
    | bool v => simp [findEnvVar] at h
    | null => simp [findEnvVar] at h
    | arr v => simp [findEnvVar] at h

theorem findEnvVar_set (name : String) :
    ∀ (envs : List Val) (s i : Nat) (e e2 : Obj),
      findEnvVar name envs s = .ok (some (i, e)) →
      getO e2 "name" = some (.str name) →
      findEnvVar name (envs.set (i - s) (.obj e2)) s = .ok (some (i, e2)) := by
  intro envs
  induction envs with
  | nil => intro s i e e2 h _; simp [findEnvVar] at h
  | cons x t ih =>
    intro s i e e2 h hname2
    cases x with
    | obj eo =>
      rw [findEnvVar] at h
      split at h
      · rename_i n heq
        split at h
        · rename_i hn
          simp only [Except.ok.injEq, Option.some.injEq, Prod.mk.injEq] at h
          have hzero : i - s = 0 := by omega
          rw [hzero]
          simp only [List.set]
          simp only [findEnvVar, hname2, if_pos rfl]
          rw [h.1]
          simp
        · rename_i hn
          have hle := findEnvVar_start_le name t (s + 1) i e h
          have hpos : i - s = (i - (s + 1)) + 1 := by omega
          rw [hpos]
          simp only [List.set]
          simp only [findEnvVar, heq, if_neg hn]
          exact ih (s + 1) i e e2 h hname2
      · rename_i v hne hv
        have hle := findEnvVar_start_le name t (s + 1) i e h
        have hpos : i - s = (i - (s + 1)) + 1 := by omega
        rw [hpos]
        simp only [List.set]
        cases v with
        | str n => exact (hne n rfl).elim
        | int m =>
          simp only [findEnvVar, hv]
          exact ih (s + 1) i e e2 h hname2
        | bool b =>
          simp only [findEnvVar, hv]
          exact ih (s + 1) i e e2 h hname2
        | null =>
          simp only [findEnvVar, hv]
          exact ih (s + 1) i e e2 h hname2
        | arr l =>
          simp only [findEnvVar, hv]
          exact ih (s + 1) i e e2 h hname2
        | obj o =>
          simp only [findEnvVar, hv]
          exact ih (s + 1) i e e2 h hname2
      · exact absurd h (by simp)
    | str v => simp [findEnvVar] at h
    | int v => simp [findEnvVar] at h
    | bool v => simp [findEnvVar] at h
    | null => simp [findEnvVar] at h
    | arr v => simp [findEnvVar] at h

end K8s

namespace K8s

/-- Counterexample for claim C4.  First: a current value `"a\tb"` contains
a whitespace character (tab) but no space; the claim says it is tokenized
and `"c"` appended (giving `"a\tb c"`), but the code tests `' ' in value`
and replaces the value wholesale with `"c"`.  Second: re-applying the same
new value `"c d"` is not a no-op — the value keeps growing, because a
value containing a space is never equal to any single whitespace token. -/
theorem c4_counterexample :
    upsertEnv [("env", .arr [.obj [("name", .str "X"), ("value", .str "a\tb")]])] "X" "c"
      = .ok [("env", .arr [.obj [("name", .str "X"), ("value", .str "c")]])]
    ∧ ("c" : String) ≠ "a\tb c"
    ∧ upsertEnv [("env", .arr [.obj [("name", .str "X"), ("value", .str "a b")]])] "X" "c d"
      = .ok [("env", .arr [.obj [("name", .str "X"), ("value", .str "a b c d")]])]
    ∧ upsertEnv [("env", .arr [.obj [("name", .str "X"), ("value", .str "a b c d")]])] "X" "c d"
      = .ok [("env", .arr [.obj [("name", .str "X"), ("value", .str "a b c d c d")]])]
    ∧ ("a b c d c d" : String) ≠ "a b c d" :=
  ⟨rfl, by decide, rfl, rfl, by decide⟩

/-- The entry `findEnvVar` returns carries the requested name. -/
theorem findEnvVar_name (name : String) :
    ∀ (envs : List Val) (s i : Nat) (e : Obj),
      findEnvVar name envs s = .ok (some (i, e)) →
      getO e "name" = some (.str name) := by
  intro envs
  induction envs with
  | nil => intro s i e h; simp [findEnvVar] at h
  | cons x t ih =>
    intro s i e h
    cases x with
    | obj eo =>
      rw [findEnvVar] at h
      split at h
      · rename_i n heq
        split at h
        · rename_i hn
          simp only [Except.ok.injEq, Option.some.injEq, Prod.mk.injEq] at h
          rw [← h.2, heq, hn]
        · exact ih (s + 1) i e h
      · exact ih (s + 1) i e h
      · exact absurd h (by simp)
    | str v => simp [findEnvVar] at h
    | int v => simp [findEnvVar] at h
    | bool v => simp [findEnvVar] at h
    | null => simp [findEnvVar] at h
    | arr v => simp [findEnvVar] at h

end K8s

namespace K8s

/-- Claim C4 (amended): for a container whose env sequence holds an entry
with the given name (the first match, at index `i`, with current string
value `cur`): when `cur` contains at least one SPACE character (the code
tests `' ' in cur`, not arbitrary whitespace), the current value is
treated as a whitespace-token set — the new value is left alone when it is
already a token and appended after a single space otherwise; when `cur`
contains no space the value is replaced wholesale.  Re-applying the same
value is a no-op provided the value itself is whitespace-free and
non-empty. -/
theorem c4_upsert_existing_amended
    (container : Obj) (name value : String)
    (envs : List Val) (i : Nat) (e : Obj) (cur : String)
    (henv : getO container "env" = some (.arr envs))
    (hfind : findEnvVar name envs 0 = .ok (some (i, e)))
    (hval : getO e "value" = some (.str cur)) :
    (strHasChar cur ' ' = true → value ∈ pySplit cur →
        upsertEnv container name value = .ok container)
    ∧ (strHasChar cur ' ' = true → value ∉ pySplit cur →
        upsertEnv container name value =
          .ok (setO container "env"
            (.arr (envs.set i (.obj (setO e "value" (.str (cur ++ " " ++ value))))))))
    ∧ (strHasChar cur ' ' = false →
        upsertEnv container name value =
          .ok (setO container "env"
            (.arr (envs.set i (.obj (setO e "value" (.str value)))))))
    ∧ (strHasChar cur ' ' = true → value ∉ pySplit cur →
        (∀ c ∈ value.data, c.isWhitespace = false) → value ≠ "" →
        ∀ c2, upsertEnv container name value = .ok c2 →
          upsertEnv c2 name value = .ok c2) := by
  have hbranch2 : strHasChar cur ' ' = true → value ∉ pySplit cur →
      upsertEnv container name value =
        .ok (setO container "env"
          (.arr (envs.set i (.obj (setO e "value" (.str (cur ++ " " ++ value))))))) := by
    intro hsp hmem
    simp [upsertEnv, bind, Except.bind, pure, Except.pure, henv, hfind, hval, hsp, hmem]
  refine ⟨?_, hbranch2, ?_, ?_⟩
  · intro hsp hmem
    simp [upsertEnv, bind, Except.bind, pure, Except.pure, henv, hfind, hval, hsp, hmem]
  · intro hsp
    simp [upsertEnv, bind, Except.bind, pure, Except.pure, henv, hfind, hval, hsp]
  · intro hsp hmem hws hne c2 hc2
    rw [hbranch2 hsp hmem] at hc2
    have hc2eq : c2 = setO container "env"
        (.arr (envs.set i (.obj (setO e "value" (.str (cur ++ " " ++ value)))))) := by
      cases hc2
      rfl
    subst hc2eq
    set e2 : Obj := setO e "value" (.str (cur ++ " " ++ value)) with he2
    have henv2 : getO (setO container "env" (.arr (envs.set i (.obj e2)))) "env" =
        some (.arr (envs.set i (.obj e2))) := getO_setO_self container "env" _
    have hnamee : getO e "name" = some (.str name) :=
      findEnvVar_name name envs 0 i e hfind
    have hnamee2 : getO e2 "name" = some (.str name) := by
      rw [he2, getO_setO_ne e "value" "name" _ (by decide)]
      exact hnamee
    have hfind2 : findEnvVar name (envs.set i (.obj e2)) 0 = .ok (some (i, e2)) := by
      have := findEnvVar_set name envs 0 i e e2 hfind hnamee2
      simpa using this
    have hval2 : getO e2 "value" = some (.str (cur ++ " " ++ value)) :=
      getO_setO_self e "value" _
    have hsp2 : strHasChar (cur ++ " " ++ value) ' ' = true := by
      apply strHasChar_of_mem
      rw [String.data_append, String.data_append, List.append_assoc]
      simp
    have hmem2 : value ∈ pySplit (cur ++ " " ++ value) :=
      mem_pySplit_append_self cur value hws hne
    simp [upsertEnv, bind, Except.bind, pure, Except.pure, henv2, hfind2, hval2, hsp2, hmem2]

/-- Witness for C4 at a concrete container: env entry `X = "a b"`,
upserted with `"c"`. -/
theorem c4_witness :
    upsertEnv [("env", .arr [.obj [("name", .str "X"), ("value", .str "a b")]])] "X" "c" =
      .ok (setO [("env", .arr [.obj [("name", .str "X"), ("value", .str "a b")]])] "env"
        (.arr ([Val.obj [("name", .str "X"), ("value", .str "a b")]].set 0
          (.obj (setO [("name", .str "X"), ("value", .str "a b")] "value"
            (.str ("a b" ++ " " ++ "c"))))))) := by
  exact (c4_upsert_existing_amended
    [("env", .arr [.obj [("name", .str "X"), ("value", .str "a b")]])] "X" "c"
    [Val.obj [("name", .str "X"), ("value", .str "a b")]] 0
    [("name", .str "X"), ("value", .str "a b")] "a b"
    rfl rfl rfl).2.1 (by decide) (by decide)

end K8s

namespace K8s

/-- The `spec.resources.requests.storage` value of a volume-claim
template, when the full path exists — exactly the condition chain the
resize loop tests. -/
def storageOf (t : Val) : Option Val :=
  match t with
  | .obj tov =>
    match getO tov "spec" with
    | some (.obj ts) =>
      match getO ts "resources" with
      | some (.obj res) =>
        match getO res "requests" with
        | some (.obj req) => getO req "storage"
        | _ => none
      | _ => none
    | _ => none
  | _ => none

theorem resizeTemplate_of_storage_none (s : String) (t : Val)
    (h : storageOf t = none) : resizeTemplate s t = t := by
  cases t with
  | obj tov =>
    cases hspec : getO tov "spec" with
    | none => simp only [resizeTemplate, hspec]
    | some v =>
      cases v with
      | obj ts =>
        cases hres : getO ts "resources" with
        | none => simp only [resizeTemplate, hspec, hres]
        | some v2 =>
          cases v2 with
          | obj res =>
            cases hreq : getO res "requests" with
            | none => simp only [resizeTemplate, hspec, hres, hreq]
            | some v3 =>
              cases v3 with
              | obj req =>
                simp only [storageOf, hspec, hres, hreq] at h
                have hf : hasKey req "storage" = false := by
                  rw [hasKey_eq_isSome_getO, h]
                  rfl
                simp only [resizeTemplate, hspec, hres, hreq, hf]
                simp
              | str v4 => simp only [resizeTemplate, hspec, hres, hreq]
              | int v4 => simp only [resizeTemplate, hspec, hres, hreq]
              | bool v4 => simp only [resizeTemplate, hspec, hres, hreq]
              | null => simp only [resizeTemplate, hspec, hres, hreq]
              | arr v4 => simp only [resizeTemplate, hspec, hres, hreq]
          | str v4 => simp only [resizeTemplate, hspec, hres]
          | int v4 => simp only [resizeTemplate, hspec, hres]
          | bool v4 => simp only [resizeTemplate, hspec, hres]
          | null => simp only [resizeTemplate, hspec, hres]
          | arr v4 => simp only [resizeTemplate, hspec, hres]
      | str v4 => simp only [resizeTemplate, hspec]
      | int v4 => simp only [resizeTemplate, hspec]
      | bool v4 => simp only [resizeTemplate, hspec]
      | null => simp only [resizeTemplate, hspec]
      | arr v4 => simp only [resizeTemplate, hspec]
  | str v => rfl
  | int v => rfl
  | bool v => rfl
  | null => rfl
  | arr v => rfl

theorem storageOf_resizeTemplate (s : String) (t : Val) (v : Val)
    (h : storageOf t = some v) :
    storageOf (resizeTemplate s t) = some (.str s) := by
  cases t with
  | obj tov =>
    rw [storageOf] at h
    split at h
    · rename_i ts hts
      split at h
      · rename_i res hres
        split at h
        · rename_i req hreq
          have hk : hasKey req "storage" = true := by
            rw [hasKey_eq_isSome_getO, h]
            rfl
          simp [resizeTemplate, hts, hres, hreq, hk, storageOf, getO_setO_self]
        · exact absurd h (by simp)
      · exact absurd h (by simp)
    · exact absurd h (by simp)
  | str v2 => exact absurd h (by simp [storageOf])
  | int v2 => exact absurd h (by simp [storageOf])
  | bool v2 => exact absurd h (by simp [storageOf])
  | null => exact absurd h (by simp [storageOf])
  | arr v2 => exact absurd h (by simp [storageOf])

end K8s

namespace K8s

/-- Claim C7: for every descriptor with a `spec.volumeClaimTemplates`
sequence and every new-size string, the resize overwrites the storage
value with `newSize` verbatim in every template that has the
`spec.resources.requests.storage` path, leaves templates without that
path untouched, keeps the number of templates unchanged, leaves the
whole `spec.template` subtree (where inline volume references live)
unchanged, and surfaces exactly the inline persistent-volume-claim names
as diagnostic notes without rewriting them. -/
theorem c7_resize_volumes
    (m : Obj) (newSize : String) (sp : Obj) (ts : List Val)
    (hsp : getO m "spec" = some (.obj sp))
    (hts : getO sp "volumeClaimTemplates" = some (.arr ts)) :
    ∃ sp2 ts2,
      getO (update_persistent_volume_size m newSize).1 "spec" = some (.obj sp2)
      ∧ getO sp2 "volumeClaimTemplates" = some (.arr ts2)
      ∧ ts2.length = ts.length
      ∧ (∀ (j : Nat) t v, ts[j]? = some t → storageOf t = some v →
          ∃ t2, ts2[j]? = some t2 ∧ storageOf t2 = some (.str newSize))
      ∧ (∀ (j : Nat) t, ts[j]? = some t → storageOf t = none → ts2[j]? = some t)
      ∧ getO sp2 "template" = getO sp "template"
      ∧ (∀ tpl tps vs, getO sp "template" = some (.obj tpl) →
          getO tpl "spec" = some (.obj tps) →
          getO tps "volumes" = some (.arr vs) →
          (update_persistent_volume_size m newSize).2 = vs.filterMap inlineClaimNote) := by
  have hm1 : (update_persistent_volume_size m newSize).1 =
      setO m "spec" (.obj (setO sp "volumeClaimTemplates"
        (.arr (ts.map (resizeTemplate newSize))))) := by
    simp only [update_persistent_volume_size, hsp, hts]
  refine ⟨setO sp "volumeClaimTemplates" (.arr (ts.map (resizeTemplate newSize))),
    ts.map (resizeTemplate newSize), ?_, ?_, ?_, ?_, ?_, ?_, ?_⟩
  · rw [hm1, getO_setO_self]
  · rw [getO_setO_self]
  · exact List.length_map ts _
  · intro j t v hj hst
    refine ⟨resizeTemplate newSize t, ?_, ?_⟩
    · rw [List.getElem?_map, hj]
      rfl
    · exact storageOf_resizeTemplate newSize t v hst
  · intro j t hj hst
    rw [List.getElem?_map, hj]
    simp [resizeTemplate_of_storage_none newSize t hst]
  · exact getO_setO_ne sp "volumeClaimTemplates" "template" _ (by decide)
  · intro tpl tps vs htpl htps hvs
    have htpl2 : getO (setO sp "volumeClaimTemplates"
        (.arr (ts.map (resizeTemplate newSize)))) "template" = some (.obj tpl) := by
      rw [getO_setO_ne sp "volumeClaimTemplates" "template" _ (by decide)]
      exact htpl
    simp only [update_persistent_volume_size, hsp, hts, getO_setO_self,
      htpl2, htps, hvs]

/-- A compact StatefulSet manifest for the C7 witness: one resizable
template, a template subtree with an (empty) inline volume list. -/
def c7Manifest : Obj :=
  [("spec", .obj
    [("volumeClaimTemplates", .arr [.obj [("spec", .obj [("resources", .obj
        [("requests", .obj [("storage", .str "50Gi")])])])]]),
     ("template", .obj [("spec", .obj [("volumes", .arr [])])])])]

/-- Witness for C7 at the compact concrete manifest. -/
theorem c7_witness :
    ∃ sp2 ts2,
      getO (update_persistent_volume_size c7Manifest "100Gi").1 "spec" = some (.obj sp2)
      ∧ getO sp2 "volumeClaimTemplates" = some (.arr ts2)
      ∧ ts2.length = [Val.obj [("spec", .obj [("resources", .obj
          [("requests", .obj [("storage", .str "50Gi")])])])]].length
      ∧ (∀ (j : Nat) t v, [Val.obj [("spec", .obj [("resources", .obj
            [("requests", .obj [("storage", .str "50Gi")])])])]][j]? = some t →
          storageOf t = some v →
          ∃ t2, ts2[j]? = some t2 ∧ storageOf t2 = some (.str "100Gi"))
      ∧ (∀ (j : Nat) t, [Val.obj [("spec", .obj [("resources", .obj
            [("requests", .obj [("storage", .str "50Gi")])])])]][j]? = some t →
          storageOf t = none →
          ts2[j]? = some t)
      ∧ getO sp2 "template" = getO
          [("volumeClaimTemplates", .arr [.obj [("spec", .obj [("resources", .obj
              [("requests", .obj [("storage", .str "50Gi")])])])]]),
           ("template", .obj [("spec", .obj [("volumes", .arr [])])])] "template"
      ∧ (∀ tpl tps vs, getO
            [("volumeClaimTemplates", .arr [.obj [("spec", .obj [("resources", .obj
                [("requests", .obj [("storage", .str "50Gi")])])])]]),
             ("template", .obj [("spec", .obj [("volumes", .arr [])])])] "template"
              = some (.obj tpl) →
          getO tpl "spec" = some (.obj tps) →
          getO tps "volumes" = some (.arr vs) →
          (update_persistent_volume_size c7Manifest "100Gi").2 =
            vs.filterMap inlineClaimNote) := by
  exact c7_resize_volumes c7Manifest "100Gi"
    [("volumeClaimTemplates", .arr [.obj [("spec", .obj [("resources", .obj
        [("requests", .obj [("storage", .str "50Gi")])])])]]),
     ("template", .obj [("spec", .obj [("volumes", .arr [])])])]
    [Val.obj [("spec", .obj [("resources", .obj
        [("requests", .obj [("storage", .str "50Gi")])])])]]
    rfl rfl

end K8s

namespace K8s

/-- A StatefulSet manifest whose pod template has an empty containers
sequence. -/
def emptyContainersSts : Obj :=
  [("metadata", .obj [("name", .str "db")]),
   ("spec", .obj [("template", .obj [("metadata", .obj []),
      ("spec", .obj [("containers", .arr [])])])])]

/-- Counterexample for claim C9: on a replica-set-kind run over a
descriptor with an empty containers sequence, no MalformedManifest error
occurs — the confirmed non-dry run proceeds to the destructive
non-cascading delete and the apply. -/
theorem c9_counterexample :
    (sts_main ⟨"db", "prod", false, some "100Gi"⟩ emptyContainersSts "" "yes").calls =
      [.get "statefulset" "db" "prod", .listPods "prod" "app=db",
       .delete "statefulset" "db" "prod" false, .apply "prod"]
    ∧ (sts_main ⟨"db", "prod", false, some "100Gi"⟩ emptyContainersSts "" "yes").result
        = .ok
    ∧ ((sts_main ⟨"db", "prod", false, some "100Gi"⟩ emptyContainersSts "" "yes").calls.any
        KCall.isDelete) = true :=
  ⟨rfl, rfl, rfl⟩

/-- Claim C9 (amended): the job kind behaves as claimed — an empty
containers sequence raises `ValueError("No containers found in job
manifest")` inside the transform and the run aborts having issued no
delete and no apply.  The replica-set kind has no such check: its
sanitizer succeeds on any mapping-shaped descriptor, and a confirmed
non-dry run issues the non-cascading delete and the apply even when the
containers sequence is empty. -/
theorem c9_empty_containers_amended :
    (∀ (a : JobArgs) (fetched : Obj) (reads : Nat → JobStatus)
        (sp tpl ps : Obj),
      getO fetched "spec" = some (.obj sp) →
      getO sp "template" = some (.obj tpl) →
      getO tpl "spec" = some (.obj ps) →
      getO ps "containers" = some (.arr []) →
      update_job_manifest fetched a.envVarName a.envVarValue =
        .error (.valueError "No containers found in job manifest")
      ∧ ((rerun_job_main a fetched reads).calls.all
          (fun c => !c.isDelete && !c.isApply)) = true
      ∧ (rerun_job_main a fetched reads).result = .err)
    ∧ (∀ (a : StsArgs) (fetched : Obj) (prompt confirm : String),
      a.dryRun = false →
      pyLower (pyStrip confirm) = "yes" →
      (sts_main a fetched prompt confirm).calls =
        [.get "statefulset" a.stsName a.ns, .listPods a.ns ("app=" ++ a.stsName),
         .delete "statefulset" a.stsName a.ns false, .apply a.ns]
      ∧ (sts_main a fetched prompt confirm).result = .ok) := by
  constructor
  · intro a fetched reads sp tpl ps hsp htpl hps hcont
    have herr : update_job_manifest fetched a.envVarName a.envVarValue =
        .error (.valueError "No containers found in job manifest") := by
      simp [update_job_manifest, mutateJobContainer, bind, Except.bind,
        pure, Except.pure, throw, throwThe, MonadExceptOf.throw,
        getObjE, hsp, htpl, hps, hcont]
    refine ⟨herr, ?_, ?_⟩
    · rw [rerun_job_main]
      by_cases h1 : (truthy a.envVarName && !truthy a.envVarValue) = true
      · simp [h1]
      · by_cases h2 : (truthy a.envVarValue && !truthy a.envVarName) = true
        · simp [h1, h2]
        · simp [h1, h2, herr, KCall.isDelete, KCall.isApply]
    · rw [rerun_job_main]
      by_cases h1 : (truthy a.envVarName && !truthy a.envVarValue) = true
      · simp [h1]
      · by_cases h2 : (truthy a.envVarValue && !truthy a.envVarName) = true
        · simp [h1, h2]
        · simp [h1, h2, herr]
  · intro a fetched prompt confirm hdry hconfirm
    constructor
    · simp [sts_main, hdry, hconfirm]
    · simp [sts_main, hdry, hconfirm]

/-- Witness for C9, discharging both conjuncts' hypotheses at concrete
inputs. -/
theorem c9_witness :
    (update_job_manifest emptyContainersSts none none =
        .error (.valueError "No containers found in job manifest")
      ∧ (((rerun_job_main ⟨"j", "ns", none, none, false, 10, false⟩
          emptyContainersSts exampleReads).calls.all
          (fun c => !c.isDelete && !c.isApply)) = true)
      ∧ (rerun_job_main ⟨"j", "ns", none, none, false, 10, false⟩
          emptyContainersSts exampleReads).result = .err)
    ∧ ((sts_main ⟨"db", "prod", false, some "100Gi"⟩ emptyContainersSts "" "yes").calls =
        [.get "statefulset" "db" "prod", .listPods "prod" "app=db",
         .delete "statefulset" "db" "prod" false, .apply "prod"]
      ∧ (sts_main ⟨"db", "prod", false, some "100Gi"⟩ emptyContainersSts "" "yes").result
          = .ok) := by
  constructor
  · exact c9_empty_containers_amended.1 ⟨"j", "ns", none, none, false, 10, false⟩
      emptyContainersSts exampleReads
      [("template", .obj [("metadata", .obj []),
        ("spec", .obj [("containers", .arr [])])])]
      [("metadata", .obj []), ("spec", .obj [("containers", .arr [])])]
      [("containers", .arr [])]
      rfl rfl rfl rfl
  · exact c9_empty_containers_amended.2 ⟨"db", "prod", false, some "100Gi"⟩
      emptyContainersSts "" "yes" rfl (by decide)

end K8s

namespace K8s

/-- A small well-formed StatefulSet manifest. -/
def smallStsManifest : Obj :=
  [("metadata", .obj [("name", .str "db")]),
   ("spec", .obj [("template", .obj [("metadata", .obj []),
      ("spec", .obj [("containers", .arr [.obj [("image", .str "db:1")]])])])])]

/-- Counterexample for claim C2: a replica-set-kind dry run issues a
remote pod-list call after the initial fetch — the trace is not the fetch
alone. -/
theorem c2_counterexample :
    (sts_main ⟨"db", "prod", true, some "100Gi"⟩ smallStsManifest "" "").calls =
      [.get "statefulset" "db" "prod", .listPods "prod" "app=db"]
    ∧ (sts_main ⟨"db", "prod", true, some "100Gi"⟩ smallStsManifest "" "").calls ≠
      [.get "statefulset" "db" "prod"]
    ∧ (sts_main ⟨"db", "prod", true, some "100Gi"⟩ smallStsManifest "" "").result = .ok :=
  ⟨rfl, by decide, rfl⟩

/-- Claim C2 (amended): in a dry run, neither kind issues any delete or
create/apply call and the run ends as a terminal success returning the
transformed descriptor (for the job kind: when argument validation and
the transform succeed).  The job kind issues no remote call at all past
the initial fetch; the replica-set kind issues exactly one additional
read-only pod-list call after the fetch, before the dry-run branch. -/
theorem c2_dry_run_amended :
    (∀ (a : JobArgs) (fetched : Obj) (reads : Nat → JobStatus),
      a.dryRun = true →
      (truthy a.envVarName && !truthy a.envVarValue) = false →
      (truthy a.envVarValue && !truthy a.envVarName) = false →
      (rerun_job_main a fetched reads).calls = [.get "job" a.jobName a.ns]
      ∧ ((rerun_job_main a fetched reads).calls.all
          (fun c => !c.isDelete && !c.isApply)) = true
      ∧ (∀ u, update_job_manifest fetched a.envVarName a.envVarValue = .ok u →
          rerun_job_main a fetched reads = ⟨[.get "job" a.jobName a.ns], .ok, some u⟩))
    ∧ (∀ (a : StsArgs) (fetched : Obj) (prompt confirm : String),
      a.dryRun = true →
      (sts_main a fetched prompt confirm).calls =
        [.get "statefulset" a.stsName a.ns, .listPods a.ns ("app=" ++ a.stsName)]
      ∧ ((sts_main a fetched prompt confirm).calls.all
          (fun c => !c.isDelete && !c.isApply)) = true
      ∧ (sts_main a fetched prompt confirm).result = .ok
      ∧ (∃ d, (sts_main a fetched prompt confirm).shown = some d)) := by
  constructor
  · intro a fetched reads hdry h1 h2
    cases hupd : update_job_manifest fetched a.envVarName a.envVarValue with
    | error e =>
      refine ⟨?_, ?_, ?_⟩
      · simp [rerun_job_main, h1, h2, hupd]
      · simp [rerun_job_main, h1, h2, hupd, KCall.isDelete, KCall.isApply]
      · intro u hu
        exact absurd hu (by simp)
    | ok u0 =>
      refine ⟨?_, ?_, ?_⟩
      · simp [rerun_job_main, h1, h2, hupd, hdry]
      · simp [rerun_job_main, h1, h2, hupd, hdry, KCall.isDelete, KCall.isApply]
      · intro u hu
        have hu2 : u0 = u := by
          cases hu
          rfl
        subst hu2
        simp [rerun_job_main, h1, h2, hupd, hdry]
  · intro a fetched prompt confirm hdry
    refine ⟨?_, ?_, ?_, ?_⟩
    · simp [sts_main, hdry]
    · simp [sts_main, hdry, KCall.isDelete, KCall.isApply]
    · simp [sts_main, hdry]
    · refine ⟨?_, ?_⟩
      · exact (sts_main a fetched prompt confirm).shown.getD []
      · simp [sts_main, hdry]

/-- Witness for C2, applying the amended theorem at concrete dry-run
invocations of both kinds. -/
theorem c2_witness :
    (rerun_job_main ⟨"j", "ns", none, none, false, 10, true⟩ noEnvManifest
      exampleReads).calls = [.get "job" "j" "ns"]
    ∧ (sts_main ⟨"db", "prod", true, none⟩ smallStsManifest "" "").calls =
        [.get "statefulset" "db" "prod", .listPods "prod" "app=db"]
    ∧ (sts_main ⟨"db", "prod", true, none⟩ smallStsManifest "" "").result = .ok := by
  refine ⟨?_, ?_, ?_⟩
  · exact (c2_dry_run_amended.1 ⟨"j", "ns", none, none, false, 10, true⟩
      noEnvManifest exampleReads rfl rfl rfl).1
  · exact (c2_dry_run_amended.2 ⟨"db", "prod", true, none⟩
      smallStsManifest "" "" rfl).1
  · exact (c2_dry_run_amended.2 ⟨"db", "prod", true, none⟩
      smallStsManifest "" "" rfl).2.2.1

end K8s

namespace K8s

/-- A path segment into a descriptor tree: a mapping key or a sequence
index. -/
inductive Seg where
  | key (k : String)
  | idx (n : Nat)
  deriving DecidableEq

/-- Look a path up in a descriptor tree. -/
def lookPath : Val → List Seg → Option Val
  | v, [] => some v
  | .obj m, .key k :: p =>
    match getO m k with
    | some v => lookPath v p
    | none => none
  | .arr xs, .idx n :: p =>
    match xs[n]? with
    | some v => lookPath v p
    | none => none
  | _, _ => none

/-- A job manifest carrying every field the spec's sanitize list names. -/
def c1JobManifest : Obj :=
  [("apiVersion", .str "batch/v1"), ("kind", .str "Job"),
   ("metadata", .obj [("name", .str "myjob"), ("uid", .str "u1"),
      ("resourceVersion", .str "5"), ("creationTimestamp", .str "t"),
      ("generation", .int 2), ("labels", .obj [("a", .str "b")]),
      ("managedFields", .arr []),
      ("annotations", .obj [
        ("kubectl.kubernetes.io/last-applied-configuration", .str "cfg"),
        ("deployment.kubernetes.io/revision", .str "3")])]),
   ("spec", .obj [("selector", .obj [("matchLabels", .obj [("x", .str "y")])]),
      ("template", .obj [("metadata", .obj [("labels", .obj [("x", .str "y")]),
          ("creationTimestamp", .str "t2")]),
        ("spec", .obj [("containers", .arr [.obj [("image", .str "img:v1")]])])])]),
   ("status", .obj [("succeeded", .int 1)])]

/-- What rerun_job.py actually produces on `c1JobManifest` (no env
mutation requested). -/
def c1JobAfter : Obj :=
  [("apiVersion", .str "batch/v1"), ("kind", .str "Job"),
   ("metadata", .obj [("name", .str "myjob"), ("managedFields", .arr []),
      ("annotations", .obj [("deployment.kubernetes.io/revision", .str "3")])]),
   ("spec", .obj [("template", .obj [("metadata", .obj [("creationTimestamp", .str "t2")]),
        ("spec", .obj [("containers", .arr [.obj [("image", .str "img:latest")]])])])])]

/-- A job manifest whose annotations hold only the
last-applied-configuration key. -/
def c1JobAnnManifest : Obj :=
  [("metadata", .obj [("annotations", .obj
      [("kubectl.kubernetes.io/last-applied-configuration", .str "cfg")])]),
   ("spec", .obj [("template", .obj [("metadata", .obj []),
      ("spec", .obj [("containers", .arr [.obj [("image", .str "i")]])])])])]

/-- The job output on `c1JobAnnManifest`: the emptied annotations mapping
is kept. -/
def c1JobAnnAfter : Obj :=
  [("metadata", .obj [("annotations", .obj [])]),
   ("spec", .obj [("template", .obj [("metadata", .obj []),
      ("spec", .obj [("containers", .arr [.obj [("image", .str "i:latest")]])])])])]

/-- A StatefulSet manifest with labels at both metadata locations and a
spec selector. -/
def c1StsManifest : Obj :=
  [("metadata", .obj [("name", .str "db"), ("uid", .str "u1"),
      ("resourceVersion", .str "5"), ("creationTimestamp", .str "t"),
      ("generation", .int 2), ("labels", .obj [("a", .str "b")]),
      ("managedFields", .arr []),
      ("annotations", .obj [
        ("kubectl.kubernetes.io/last-applied-configuration", .str "cfg")])]),
   ("spec", .obj [("selector", .obj [("matchLabels", .obj [("x", .str "y")])]),
      ("template", .obj [("metadata", .obj [("labels", .obj [("x", .str "y")]),
          ("creationTimestamp", .str "t2")]),
        ("spec", .obj [("containers", .arr [.obj [("image", .str "db:1")]])])])]),
   ("status", .obj [("readyReplicas", .int 3)])]

/-- What sts_resizer.py's clean_manifest actually produces on
`c1StsManifest`. -/
def c1StsAfter : Obj :=
  [("metadata", .obj [("name", .str "db"), ("labels", .obj [("a", .str "b")])]),
   ("spec", .obj [("selector", .obj [("matchLabels", .obj [("x", .str "y")])]),
      ("template", .obj [("metadata", .obj [("labels", .obj [("x", .str "y")])]),
        ("spec", .obj [("containers", .arr [.obj [("image", .str "db:1")]])])])])]

/-- Counterexample for claim C1: the union sanitize list the claim states
does not match either kind.  The job kind keeps `metadata.managedFields`,
keeps the revision annotation (it only pops the last-applied-configuration
key), keeps an emptied annotations mapping, and keeps
`spec.template.metadata.creationTimestamp`.  The replica-set kind keeps
`metadata.labels` and keeps `spec.selector`. -/
theorem c1_counterexample :
    update_job_manifest c1JobManifest none none = .ok c1JobAfter
    ∧ lookPath (.obj c1JobAfter) [.key "metadata", .key "managedFields"]
        = some (.arr [])
    ∧ lookPath (.obj c1JobAfter)
        [.key "metadata", .key "annotations", .key "deployment.kubernetes.io/revision"]
        = some (.str "3")
    ∧ lookPath (.obj c1JobAfter)
        [.key "spec", .key "template", .key "metadata", .key "creationTimestamp"]
        = some (.str "t2")
    ∧ update_job_manifest c1JobAnnManifest none none = .ok c1JobAnnAfter
    ∧ lookPath (.obj c1JobAnnAfter) [.key "metadata", .key "annotations"]
        = some (.obj [])
    ∧ clean_manifest c1StsManifest = c1StsAfter
    ∧ lookPath (.obj c1StsAfter) [.key "spec", .key "selector"]
        = some (.obj [("matchLabels", .obj [("x", .str "y")])])
    ∧ lookPath (.obj c1StsAfter) [.key "metadata", .key "labels"]
        = some (.obj [("a", .str "b")]) :=
  ⟨rfl, rfl, rfl, rfl, rfl, rfl, rfl, rfl, rfl⟩

end K8s

namespace K8s

theorem getO_cleanAnnotations_ne (x : Obj) (k : String) (h : k ≠ "annotations") :
    getO (cleanAnnotations x) k = getO x k := by
  rw [cleanAnnotations]
  split
  · rename_i ann heq
    by_cases he : (popO (popO (popO ann
        "kubectl.kubernetes.io/last-applied-configuration")
        "deployment.kubernetes.io/revision") "kubernetes.io/change-cause").isEmpty
    · rw [if_pos he, getO_popO_ne x "annotations" k h]
    · rw [if_neg he, getO_setO_ne x "annotations" k _ h]
  · rfl

/-- Field-level behaviour of the metadata cleanup shared by both metadata
locations of clean_manifest. -/
theorem cleanMetadataFields_spec (md : Obj) :
    getO (cleanMetadataFields md) "creationTimestamp" = none
    ∧ getO (cleanMetadataFields md) "resourceVersion" = none
    ∧ getO (cleanMetadataFields md) "uid" = none
    ∧ getO (cleanMetadataFields md) "generation" = none
    ∧ getO (cleanMetadataFields md) "managedFields" = none
    ∧ getO (cleanMetadataFields md) "labels" = getO md "labels"
    ∧ (getO md "annotations" = none → getO (cleanMetadataFields md) "annotations" = none)
    ∧ (∀ ann, getO md "annotations" = some (.obj ann) →
        (popO (popO (popO ann "kubectl.kubernetes.io/last-applied-configuration")
            "deployment.kubernetes.io/revision") "kubernetes.io/change-cause" = [] →
          getO (cleanMetadataFields md) "annotations" = none)
        ∧ (popO (popO (popO ann "kubectl.kubernetes.io/last-applied-configuration")
            "deployment.kubernetes.io/revision") "kubernetes.io/change-cause" ≠ [] →
          getO (cleanMetadataFields md) "annotations" =
            some (.obj (popO (popO (popO ann
              "kubectl.kubernetes.io/last-applied-configuration")
              "deployment.kubernetes.io/revision") "kubernetes.io/change-cause")))) := by
  have h5 : ∀ k : String, k ≠ "annotations" →
      getO (cleanMetadataFields md) k =
        getO (popO (popO (popO (popO (popO md "creationTimestamp")
          "resourceVersion") "uid") "generation") "managedFields") k := by
    intro k hk
    rw [cleanMetadataFields, getO_cleanAnnotations_ne _ k hk]
  have hannEq : getO (popO (popO (popO (popO (popO md "creationTimestamp")
      "resourceVersion") "uid") "generation") "managedFields") "annotations" =
      getO md "annotations" := by
    rw [getO_popO_ne _ _ _ (by decide), getO_popO_ne _ _ _ (by decide),
      getO_popO_ne _ _ _ (by decide), getO_popO_ne _ _ _ (by decide),
      getO_popO_ne _ _ _ (by decide)]
  refine ⟨?_, ?_, ?_, ?_, ?_, ?_, ?_, ?_⟩
  · rw [h5 _ (by decide), getO_popO_ne _ _ _ (by decide),
      getO_popO_ne _ _ _ (by decide), getO_popO_ne _ _ _ (by decide),
      getO_popO_ne _ _ _ (by decide), getO_popO_self]
  · rw [h5 _ (by decide), getO_popO_ne _ _ _ (by decide),
      getO_popO_ne _ _ _ (by decide), getO_popO_ne _ _ _ (by decide),
      getO_popO_self]
  · rw [h5 _ (by decide), getO_popO_ne _ _ _ (by decide),
      getO_popO_ne _ _ _ (by decide), getO_popO_self]
  · rw [h5 _ (by decide), getO_popO_ne _ _ _ (by decide), getO_popO_self]
  · rw [h5 _ (by decide), getO_popO_self]
  · rw [h5 _ (by decide), getO_popO_ne _ _ _ (by decide),
      getO_popO_ne _ _ _ (by decide), getO_popO_ne _ _ _ (by decide),
      getO_popO_ne _ _ _ (by decide), getO_popO_ne _ _ _ (by decide)]
  · intro hnone
    rw [cleanMetadataFields, cleanAnnotations]
    rw [hannEq.trans hnone]
    simp only []
    exact hannEq.trans hnone
  · intro ann hsome
    constructor
    · intro hemp
      rw [cleanMetadataFields, cleanAnnotations, hannEq.trans hsome]
      simp only []
      rw [if_pos (by simp [List.isEmpty_iff, hemp]), getO_popO_self]
    · intro hne
      rw [cleanMetadataFields, cleanAnnotations, hannEq.trans hsome]
      simp only []
      rw [if_neg (by simp [List.isEmpty_iff, hne]), getO_setO_self]

end K8s

namespace K8s

/-- Field-level behaviour of the job-kind sanitize step on a well-formed
manifest: what is removed, and what the spec's list wrongly says is
removed but is in fact kept. -/
theorem cleanupJobManifest_fields
    (m md sp tpl tmd : Obj)
    (hmd : getO m "metadata" = some (.obj md))
    (hsp : getO m "spec" = some (.obj sp))
    (htpl : getO sp "template" = some (.obj tpl))
    (htmd : getO tpl "metadata" = some (.obj tmd))
    (hann : getO md "annotations" = none ∨
      ∃ ann, getO md "annotations" = some (.obj ann)) :
    ∃ m', cleanupJobManifest m = .ok m'
    ∧ getO m' "status" = none
    ∧ getO m' "matchLabels" = none
    ∧ getO m' "selector" = none
    ∧ (∃ md', getO m' "metadata" = some (.obj md')
        ∧ getO md' "creationTimestamp" = none
        ∧ getO md' "resourceVersion" = none
        ∧ getO md' "uid" = none
        ∧ getO md' "generation" = none
        ∧ getO md' "labels" = none
        ∧ getO md' "managedFields" = getO md "managedFields"
        ∧ (getO md "annotations" = none → getO md' "annotations" = none)
        ∧ (∀ ann, getO md "annotations" = some (.obj ann) →
            getO md' "annotations" = some (.obj (popO ann
              "kubectl.kubernetes.io/last-applied-configuration"))))
    ∧ (∃ sp' tpl' tmd', getO m' "spec" = some (.obj sp')
        ∧ getO sp' "selector" = none
        ∧ getO sp' "template" = some (.obj tpl')
        ∧ getO tpl' "metadata" = some (.obj tmd')
        ∧ getO tmd' "labels" = none
        ∧ getO tmd' "creationTimestamp" = getO tmd "creationTimestamp"
        ∧ getO tmd' "resourceVersion" = getO tmd "resourceVersion") := by
  have hkey : hasKey m "metadata" = true := by
    rw [hasKey_eq_isSome_getO, hmd]; rfl
  have hEA : getO (setO m "metadata" (.obj (popO (popO (popO (popO (popO md "creationTimestamp") "resourceVersion") "uid") "generation") "labels"))) "spec" = some (.obj sp) := by
    rw [getO_setO_ne _ _ _ _ (by decide)]; exact hsp
  have hEB : getO (setO (setO m "metadata" (.obj (popO (popO (popO (popO (popO md "creationTimestamp") "resourceVersion") "uid") "generation") "labels"))) "spec" (.obj (setO sp "template" (.obj (setO tpl "metadata" (.obj (popO tmd "labels"))))))) "spec" = some (.obj (setO sp "template" (.obj (setO tpl "metadata" (.obj (popO tmd "labels")))))) := getO_setO_self _ _ _
  have hEC : getO (setO (setO (setO m "metadata" (.obj (popO (popO (popO (popO (popO md "creationTimestamp") "resourceVersion") "uid") "generation") "labels"))) "spec" (.obj (setO sp "template" (.obj (setO tpl "metadata" (.obj (popO tmd "labels"))))))) "spec" (.obj (popO (setO sp "template" (.obj (setO tpl "metadata" (.obj (popO tmd "labels"))))) "selector"))) "metadata" = some (.obj (popO (popO (popO (popO (popO md "creationTimestamp") "resourceVersion") "uid") "generation") "labels")) := by
    rw [getO_setO_ne _ _ _ _ (by decide), getO_setO_ne _ _ _ _ (by decide),
      getO_setO_self]
  have hannchain : getO (popO (popO (popO (popO (popO md "creationTimestamp") "resourceVersion") "uid") "generation") "labels") "annotations" = getO md "annotations" := by
    rw [getO_popO_ne _ _ _ (by decide), getO_popO_ne _ _ _ (by decide),
      getO_popO_ne _ _ _ (by decide), getO_popO_ne _ _ _ (by decide),
      getO_popO_ne _ _ _ (by decide)]
  rcases hann with hannN | ⟨ann, hannS⟩
  · have hcase : hasKey (popO (popO (popO (popO (popO md "creationTimestamp") "resourceVersion") "uid") "generation") "labels") "annotations" = false := by
      rw [hasKey_eq_isSome_getO, hannchain, hannN]; rfl
    refine ⟨(popO (popO (popO (setO (setO (setO m "metadata" (.obj (popO (popO (popO (popO (popO md "creationTimestamp") "resourceVersion") "uid") "generation") "labels"))) "spec" (.obj (setO sp "template" (.obj (setO tpl "metadata" (.obj (popO tmd "labels"))))))) "spec" (.obj (popO (setO sp "template" (.obj (setO tpl "metadata" (.obj (popO tmd "labels"))))) "selector"))) "status") "matchLabels") "selector"), ?_, ?_, ?_, ?_,
      ⟨(popO (popO (popO (popO (popO md "creationTimestamp") "resourceVersion") "uid") "generation") "labels"), ?_, ?_, ?_, ?_, ?_, ?_, ?_, ?_, ?_⟩,
      ⟨(popO (setO sp "template" (.obj (setO tpl "metadata" (.obj (popO tmd "labels"))))) "selector"), (setO tpl "metadata" (.obj (popO tmd "labels"))), (popO tmd "labels"), ?_, ?_, ?_, ?_, ?_, ?_, ?_⟩⟩
    · simp [cleanupJobManifest, bind, Except.bind, pure, Except.pure, getObjE,
        hkey, hmd, hEA, htpl, htmd, hEB, hEC, hcase]
    · rw [getO_popO_ne _ _ _ (by decide), getO_popO_ne _ _ _ (by decide),
        getO_popO_self]
    · rw [getO_popO_ne _ _ _ (by decide), getO_popO_self]
    · rw [getO_popO_self]
    · rw [getO_popO_ne _ _ _ (by decide), getO_popO_ne _ _ _ (by decide),
        getO_popO_ne _ _ _ (by decide)]
      exact hEC
    · rw [getO_popO_ne _ _ _ (by decide), getO_popO_ne _ _ _ (by decide),
        getO_popO_ne _ _ _ (by decide), getO_popO_ne _ _ _ (by decide),
        getO_popO_self]
    · rw [getO_popO_ne _ _ _ (by decide), getO_popO_ne _ _ _ (by decide),
        getO_popO_ne _ _ _ (by decide), getO_popO_self]
    · rw [getO_popO_ne _ _ _ (by decide), getO_popO_ne _ _ _ (by decide),
        getO_popO_self]
    · rw [getO_popO_ne _ _ _ (by decide), getO_popO_self]
    · rw [getO_popO_self]
    · rw [getO_popO_ne _ _ _ (by decide), getO_popO_ne _ _ _ (by decide),
        getO_popO_ne _ _ _ (by decide), getO_popO_ne _ _ _ (by decide),
        getO_popO_ne _ _ _ (by decide)]
    · intro _
      rw [hannchain, hannN]
    · intro ann2 hs
      rw [hannN] at hs
      exact absurd hs (by simp)
    · rw [getO_popO_ne _ _ _ (by decide), getO_popO_ne _ _ _ (by decide),
        getO_popO_ne _ _ _ (by decide), getO_setO_self]
    · rw [getO_popO_self]
    · rw [getO_popO_ne _ _ _ (by decide), getO_setO_self]
    · rw [getO_setO_self]
    · rw [getO_popO_self]
    · rw [getO_popO_ne _ _ _ (by decide)]
    · rw [getO_popO_ne _ _ _ (by decide)]
  · have hcase : hasKey (popO (popO (popO (popO (popO md "creationTimestamp") "resourceVersion") "uid") "generation") "labels") "annotations" = true := by
      rw [hasKey_eq_isSome_getO, hannchain, hannS]; rfl
    have hED : getO (popO (popO (popO (popO (popO md "creationTimestamp") "resourceVersion") "uid") "generation") "labels") "annotations" = some (.obj ann) := hannchain.trans hannS
    refine ⟨(popO (popO (popO (setO (setO (setO (setO m "metadata" (.obj (popO (popO (popO (popO (popO md "creationTimestamp") "resourceVersion") "uid") "generation") "labels"))) "spec" (.obj (setO sp "template" (.obj (setO tpl "metadata" (.obj (popO tmd "labels"))))))) "spec" (.obj (popO (setO sp "template" (.obj (setO tpl "metadata" (.obj (popO tmd "labels"))))) "selector"))) "metadata" (.obj (setO (popO (popO (popO (popO (popO md "creationTimestamp") "resourceVersion") "uid") "generation") "labels") "annotations" (.obj (popO ann "kubectl.kubernetes.io/last-applied-configuration"))))) "status") "matchLabels") "selector"), ?_, ?_, ?_, ?_,
      ⟨(setO (popO (popO (popO (popO (popO md "creationTimestamp") "resourceVersion") "uid") "generation") "labels") "annotations" (.obj (popO ann "kubectl.kubernetes.io/last-applied-configuration"))), ?_, ?_, ?_, ?_, ?_, ?_, ?_, ?_, ?_⟩,
      ⟨(popO (setO sp "template" (.obj (setO tpl "metadata" (.obj (popO tmd "labels"))))) "selector"), (setO tpl "metadata" (.obj (popO tmd "labels"))), (popO tmd "labels"), ?_, ?_, ?_, ?_, ?_, ?_, ?_⟩⟩
    · simp [cleanupJobManifest, bind, Except.bind, pure, Except.pure, getObjE,
        hkey, hmd, hEA, htpl, htmd, hEB, hEC, hcase, hED]
    · rw [getO_popO_ne _ _ _ (by decide), getO_popO_ne _ _ _ (by decide),
        getO_popO_self]
    · rw [getO_popO_ne _ _ _ (by decide), getO_popO_self]
    · rw [getO_popO_self]
    · rw [getO_popO_ne _ _ _ (by decide), getO_popO_ne _ _ _ (by decide),
        getO_popO_ne _ _ _ (by decide), getO_setO_self]
    · rw [getO_setO_ne _ _ _ _ (by decide), getO_popO_ne _ _ _ (by decide),
        getO_popO_ne _ _ _ (by decide), getO_popO_ne _ _ _ (by decide),
        getO_popO_ne _ _ _ (by decide), getO_popO_self]
    · rw [getO_setO_ne _ _ _ _ (by decide), getO_popO_ne _ _ _ (by decide),
        getO_popO_ne _ _ _ (by decide), getO_popO_ne _ _ _ (by decide),
        getO_popO_self]
    · rw [getO_setO_ne _ _ _ _ (by decide), getO_popO_ne _ _ _ (by decide),
        getO_popO_ne _ _ _ (by decide), getO_popO_self]
    · rw [getO_setO_ne _ _ _ _ (by decide), getO_popO_ne _ _ _ (by decide),
        getO_popO_self]
    · rw [getO_setO_ne _ _ _ _ (by decide), getO_popO_self]
    · rw [getO_setO_ne _ _ _ _ (by decide), getO_popO_ne _ _ _ (by decide),
        getO_popO_ne _ _ _ (by decide), getO_popO_ne _ _ _ (by decide),
        getO_popO_ne _ _ _ (by decide), getO_popO_ne _ _ _ (by decide)]
    · intro hnone
      rw [hannS] at hnone
      exact absurd hnone (by simp)
    · intro ann2 hs
      rw [hannS] at hs
      have heq2 : ann = ann2 := by
        have := congrArg (fun o => match o with
          | some (Val.obj a) => a
          | _ => ([] : Obj)) hs
        simpa using this
      subst heq2
      rw [getO_setO_self]
    · rw [getO_popO_ne _ _ _ (by decide), getO_popO_ne _ _ _ (by decide),
        getO_popO_ne _ _ _ (by decide), getO_setO_ne _ _ _ _ (by decide),
        getO_setO_self]
    · rw [getO_popO_self]
    · rw [getO_popO_ne _ _ _ (by decide), getO_setO_self]
    · rw [getO_setO_self]
    · rw [getO_popO_self]
    · rw [getO_popO_ne _ _ _ (by decide)]
    · rw [getO_popO_ne _ _ _ (by decide)]

/-- Field-level behaviour of the replica-set-kind sanitize
(clean_manifest) on a well-formed manifest. -/
theorem clean_manifest_fields
    (m md sp tpl tmd : Obj)
    (hmd : getO m "metadata" = some (.obj md))
    (hsp : getO m "spec" = some (.obj sp))
    (htpl : getO sp "template" = some (.obj tpl))
    (htmd : getO tpl "metadata" = some (.obj tmd)) :
    getO (clean_manifest m) "status" = none
    ∧ getO (clean_manifest m) "metadata" = some (.obj (cleanMetadataFields md))
    ∧ (∃ sp', getO (clean_manifest m) "spec" = some (.obj sp')
        ∧ getO sp' "currentReplicas" = none
        ∧ getO sp' "updatedReplicas" = none
        ∧ getO sp' "readyReplicas" = none
        ∧ getO sp' "availableReplicas" = none
        ∧ getO sp' "observedGeneration" = none
        ∧ getO sp' "collisionCount" = none
        ∧ getO sp' "conditions" = none
        ∧ getO sp' "selector" = getO sp "selector"
        ∧ getO sp' "template" =
            some (.obj (setO tpl "metadata" (.obj (cleanMetadataFields tmd))))) := by
  have hE1 : getO (setO m "metadata" (.obj (cleanMetadataFields md))) "spec" = some (.obj sp) := by
    rw [getO_setO_ne _ _ _ _ (by decide)]; exact hsp
  have hE2 : getO (setO (setO m "metadata" (.obj (cleanMetadataFields md))) "spec" (.obj (setO sp "template" (.obj (setO tpl "metadata" (.obj (cleanMetadataFields tmd))))))) "spec" = some (.obj (setO sp "template" (.obj (setO tpl "metadata" (.obj (cleanMetadataFields tmd)))))) := getO_setO_self _ _ _
  have hrun : clean_manifest m = (popO (setO (setO (setO m "metadata" (.obj (cleanMetadataFields md))) "spec" (.obj (setO sp "template" (.obj (setO tpl "metadata" (.obj (cleanMetadataFields tmd))))))) "spec" (.obj (popO (popO (popO (popO (popO (popO (popO (setO sp "template" (.obj (setO tpl "metadata" (.obj (cleanMetadataFields tmd))))) "currentReplicas") "updatedReplicas") "readyReplicas") "availableReplicas") "observedGeneration") "collisionCount") "conditions"))) "status") := by
    simp [clean_manifest, cleanStsMetadataStep, cleanStsTemplateStep, tplFix,
      cleanStsSpecStep, popSpecStatusFields, hmd, hE1, htpl, htmd, hE2]
  rw [hrun]
  refine ⟨?_, ?_, ⟨(popO (popO (popO (popO (popO (popO (popO (setO sp "template" (.obj (setO tpl "metadata" (.obj (cleanMetadataFields tmd))))) "currentReplicas") "updatedReplicas") "readyReplicas") "availableReplicas") "observedGeneration") "collisionCount") "conditions"), ?_, ?_, ?_, ?_, ?_, ?_, ?_, ?_, ?_, ?_⟩⟩
  · rw [getO_popO_self]
  · rw [getO_popO_ne _ _ _ (by decide), getO_setO_ne _ _ _ _ (by decide),
      getO_setO_ne _ _ _ _ (by decide), getO_setO_self]
  · rw [getO_popO_ne _ _ _ (by decide), getO_setO_self]
  · rw [getO_popO_ne _ _ _ (by decide),
        getO_popO_ne _ _ _ (by decide),
        getO_popO_ne _ _ _ (by decide),
        getO_popO_ne _ _ _ (by decide),
        getO_popO_ne _ _ _ (by decide),
        getO_popO_ne _ _ _ (by decide),
        getO_popO_self]
  · rw [getO_popO_ne _ _ _ (by decide),
        getO_popO_ne _ _ _ (by decide),
        getO_popO_ne _ _ _ (by decide),
        getO_popO_ne _ _ _ (by decide),
        getO_popO_ne _ _ _ (by decide),
        getO_popO_self]
  · rw [getO_popO_ne _ _ _ (by decide),
        getO_popO_ne _ _ _ (by decide),
        getO_popO_ne _ _ _ (by decide),
        getO_popO_ne _ _ _ (by decide),
        getO_popO_self]
  · rw [getO_popO_ne _ _ _ (by decide),
        getO_popO_ne _ _ _ (by decide),
        getO_popO_ne _ _ _ (by decide),
        getO_popO_self]
  · rw [getO_popO_ne _ _ _ (by decide),
        getO_popO_ne _ _ _ (by decide),
        getO_popO_self]
  · rw [getO_popO_ne _ _ _ (by decide),
        getO_popO_self]
  · rw [getO_popO_self]
  · rw [getO_popO_ne _ _ _ (by decide),
        getO_popO_ne _ _ _ (by decide),
        getO_popO_ne _ _ _ (by decide),
        getO_popO_ne _ _ _ (by decide),
        getO_popO_ne _ _ _ (by decide),
        getO_popO_ne _ _ _ (by decide),
        getO_popO_ne _ _ _ (by decide),
        getO_setO_ne _ _ _ _ (by decide)]
  · rw [getO_popO_ne _ _ _ (by decide),
        getO_popO_ne _ _ _ (by decide),
        getO_popO_ne _ _ _ (by decide),
        getO_popO_ne _ _ _ (by decide),
        getO_popO_ne _ _ _ (by decide),
        getO_popO_ne _ _ _ (by decide),
        getO_popO_ne _ _ _ (by decide),
        getO_setO_self]

end K8s

namespace K8s

/-- Claim C1 (amended): the per-kind sanitize behaviour on well-formed
descriptors.  The job kind removes from top-level metadata
creationTimestamp, resourceVersion, uid, generation and labels (keeping
managedFields); from spec.template.metadata only labels (keeping its
creationTimestamp and resourceVersion); selector from spec; only the
last-applied-configuration key from top-level metadata's annotations,
keeping the mapping even when it becomes empty; and pops top-level
status, matchLabels and selector.  The replica-set kind removes from both
metadata locations creationTimestamp, resourceVersion, uid, generation
and managedFields (keeping labels); removes the three orchestrator
annotations from both annotation mappings and drops a mapping that
becomes empty; removes the seven status-mirroring fields from spec while
keeping spec.selector; and removes top-level status. -/
theorem c1_sanitize_amended :
    (∀ m md sp tpl tmd : Obj,
      getO m "metadata" = some (.obj md) →
      getO m "spec" = some (.obj sp) →
      getO sp "template" = some (.obj tpl) →
      getO tpl "metadata" = some (.obj tmd) →
      (getO md "annotations" = none ∨
        ∃ ann, getO md "annotations" = some (.obj ann)) →
      ∃ m', cleanupJobManifest m = .ok m'
      ∧ getO m' "status" = none
      ∧ getO m' "matchLabels" = none
      ∧ getO m' "selector" = none
      ∧ (∃ md', getO m' "metadata" = some (.obj md')
          ∧ getO md' "creationTimestamp" = none
          ∧ getO md' "resourceVersion" = none
          ∧ getO md' "uid" = none
          ∧ getO md' "generation" = none
          ∧ getO md' "labels" = none
          ∧ getO md' "managedFields" = getO md "managedFields"
          ∧ (getO md "annotations" = none → getO md' "annotations" = none)
          ∧ (∀ ann, getO md "annotations" = some (.obj ann) →
              getO md' "annotations" = some (.obj (popO ann
                "kubectl.kubernetes.io/last-applied-configuration"))))
      ∧ (∃ sp' tpl' tmd', getO m' "spec" = some (.obj sp')
          ∧ getO sp' "selector" = none
          ∧ getO sp' "template" = some (.obj tpl')
          ∧ getO tpl' "metadata" = some (.obj tmd')
          ∧ getO tmd' "labels" = none
          ∧ getO tmd' "creationTimestamp" = getO tmd "creationTimestamp"
          ∧ getO tmd' "resourceVersion" = getO tmd "resourceVersion"))
    ∧ (∀ m md sp tpl tmd : Obj,
      getO m "metadata" = some (.obj md) →
      getO m "spec" = some (.obj sp) →
      getO sp "template" = some (.obj tpl) →
      getO tpl "metadata" = some (.obj tmd) →
      getO (clean_manifest m) "status" = none
      ∧ (∃ md', getO (clean_manifest m) "metadata" = some (.obj md')
          ∧ getO md' "creationTimestamp" = none
          ∧ getO md' "resourceVersion" = none
          ∧ getO md' "uid" = none
          ∧ getO md' "generation" = none
          ∧ getO md' "managedFields" = none
          ∧ getO md' "labels" = getO md "labels"
          ∧ (getO md "annotations" = none → getO md' "annotations" = none)
          ∧ (∀ ann, getO md "annotations" = some (.obj ann) →
              (popO (popO (popO ann "kubectl.kubernetes.io/last-applied-configuration")
                  "deployment.kubernetes.io/revision") "kubernetes.io/change-cause" = [] →
                getO md' "annotations" = none)
              ∧ (popO (popO (popO ann "kubectl.kubernetes.io/last-applied-configuration")
                  "deployment.kubernetes.io/revision") "kubernetes.io/change-cause" ≠ [] →
                getO md' "annotations" = some (.obj (popO (popO (popO ann
                  "kubectl.kubernetes.io/last-applied-configuration")
                  "deployment.kubernetes.io/revision") "kubernetes.io/change-cause")))))
      ∧ (∃ sp' tpl' tmd', getO (clean_manifest m) "spec" = some (.obj sp')
          ∧ getO sp' "currentReplicas" = none
          ∧ getO sp' "updatedReplicas" = none
          ∧ getO sp' "readyReplicas" = none
          ∧ getO sp' "availableReplicas" = none
          ∧ getO sp' "observedGeneration" = none
          ∧ getO sp' "collisionCount" = none
          ∧ getO sp' "conditions" = none
          ∧ getO sp' "selector" = getO sp "selector"
          ∧ getO sp' "template" = some (.obj tpl')
          ∧ getO tpl' "metadata" = some (.obj tmd')
          ∧ getO tmd' "creationTimestamp" = none
          ∧ getO tmd' "managedFields" = none
          ∧ getO tmd' "labels" = getO tmd "labels"
          ∧ (getO tmd "annotations" = none → getO tmd' "annotations" = none))) := by
  constructor
  · intro m md sp tpl tmd hmd hsp htpl htmd hann
    exact cleanupJobManifest_fields m md sp tpl tmd hmd hsp htpl htmd hann
  · intro m md sp tpl tmd hmd hsp htpl htmd
    obtain ⟨hstatus, hmeta, sp1, hspec, h1, h2, h3, h4, h5, h6, h7, hsel, htemp⟩ :=
      clean_manifest_fields m md sp tpl tmd hmd hsp htpl htmd
    obtain ⟨a1, a2, a3, a4, a5, a6, a7, a8⟩ := cleanMetadataFields_spec md
    obtain ⟨b1, b2, b3, b4, b5, b6, b7, b8⟩ := cleanMetadataFields_spec tmd
    refine ⟨hstatus,
      ⟨cleanMetadataFields md, hmeta, a1, a2, a3, a4, a5, a6, a7, a8⟩,
      ⟨sp1, setO tpl "metadata" (.obj (cleanMetadataFields tmd)),
        cleanMetadataFields tmd,
        hspec, h1, h2, h3, h4, h5, h6, h7, hsel, htemp, getO_setO_self _ _ _,
        b1, b5, b6, b7⟩⟩

/-- Witness for C1, applying the amended theorem at small concrete
manifests of both kinds. -/
theorem c1_witness :
    (∃ m', cleanupJobManifest noEnvManifest = .ok m'
      ∧ getO m' "status" = none
      ∧ getO m' "matchLabels" = none
      ∧ getO m' "selector" = none
      ∧ (∃ md', getO m' "metadata" = some (.obj md')
          ∧ getO md' "creationTimestamp" = none
          ∧ getO md' "resourceVersion" = none
          ∧ getO md' "uid" = none
          ∧ getO md' "generation" = none
          ∧ getO md' "labels" = none
          ∧ getO md' "managedFields" =
              getO [("name", Val.str "myjob")] "managedFields"
          ∧ (getO [("name", Val.str "myjob")] "annotations" = none →
              getO md' "annotations" = none)
          ∧ (∀ ann, getO [("name", Val.str "myjob")] "annotations" = some (.obj ann) →
              getO md' "annotations" = some (.obj (popO ann
                "kubectl.kubernetes.io/last-applied-configuration"))))
      ∧ (∃ sp' tpl' tmd', getO m' "spec" = some (.obj sp')
          ∧ getO sp' "selector" = none
          ∧ getO sp' "template" = some (.obj tpl')
          ∧ getO tpl' "metadata" = some (.obj tmd')
          ∧ getO tmd' "labels" = none
          ∧ getO tmd' "creationTimestamp" = getO ([] : Obj) "creationTimestamp"
          ∧ getO tmd' "resourceVersion" = getO ([] : Obj) "resourceVersion"))
    ∧ getO (clean_manifest smallStsManifest) "status" = none := by
  constructor
  · exact c1_sanitize_amended.1 noEnvManifest
      [("name", Val.str "myjob")]
      [("template", .obj [("metadata", .obj []),
        ("spec", .obj [("containers", .arr [.obj [("image", .str "img:v1")]])])])]
      [("metadata", .obj []),
       ("spec", .obj [("containers", .arr [.obj [("image", .str "img:v1")]])])]
      []
      rfl rfl rfl rfl (Or.inl rfl)
  · exact (c1_sanitize_amended.2 smallStsManifest
      [("name", Val.str "db")]
      [("template", .obj [("metadata", .obj []),
        ("spec", .obj [("containers", .arr [.obj [("image", .str "db:1")]])])])]
      [("metadata", .obj []),
       ("spec", .obj [("containers", .arr [.obj [("image", .str "db:1")]])])]
      []
      rfl rfl rfl rfl).1

theorem cleanMetadataFields_idem (md : Obj) :
    cleanMetadataFields (cleanMetadataFields md) = cleanMetadataFields md := by
  obtain ⟨a1, a2, a3, a4, a5, a6, a7, a8⟩ := cleanMetadataFields_spec md
  have hpop5 : (popO (popO (popO (popO (popO (cleanMetadataFields md) "creationTimestamp") "resourceVersion") "uid") "generation") "managedFields") = cleanMetadataFields md := by
    rw [popO_of_getO_eq_none _ _ a1, popO_of_getO_eq_none _ _ a2,
      popO_of_getO_eq_none _ _ a3, popO_of_getO_eq_none _ _ a4,
      popO_of_getO_eq_none _ _ a5]
  have hchain5 : getO (popO (popO (popO (popO (popO md "creationTimestamp") "resourceVersion") "uid") "generation") "managedFields") "annotations" = getO md "annotations" := by
    rw [getO_popO_ne _ _ _ (by decide), getO_popO_ne _ _ _ (by decide), getO_popO_ne _ _ _ (by decide), getO_popO_ne _ _ _ (by decide), getO_popO_ne _ _ _ (by decide)]
  show cleanAnnotations (popO (popO (popO (popO (popO (cleanMetadataFields md) "creationTimestamp") "resourceVersion") "uid") "generation") "managedFields") = cleanMetadataFields md
  rw [hpop5]
  cases hann : getO md "annotations" with
  | none =>
    rw [cleanAnnotations, a7 hann]
  | some v =>
    cases v with
    | obj ann =>
      by_cases hemp : (popO (popO (popO ann "kubectl.kubernetes.io/last-applied-configuration") "deployment.kubernetes.io/revision") "kubernetes.io/change-cause") = []
      · rw [cleanAnnotations, (a8 ann hann).1 hemp, cleanMetadataFields]
      · have hval := (a8 ann hann).2 hemp
        have hcol1 : getO (popO (popO (popO ann "kubectl.kubernetes.io/last-applied-configuration") "deployment.kubernetes.io/revision") "kubernetes.io/change-cause") "kubectl.kubernetes.io/last-applied-configuration" = none := by
          rw [getO_popO_ne _ _ _ (by decide), getO_popO_ne _ _ _ (by decide), getO_popO_self]
        have hcol2 : getO (popO (popO (popO ann "kubectl.kubernetes.io/last-applied-configuration") "deployment.kubernetes.io/revision") "kubernetes.io/change-cause") "deployment.kubernetes.io/revision" = none := by
          rw [getO_popO_ne _ _ _ (by decide), getO_popO_self]
        have hcol3 : getO (popO (popO (popO ann "kubectl.kubernetes.io/last-applied-configuration") "deployment.kubernetes.io/revision") "kubernetes.io/change-cause") "kubernetes.io/change-cause" = none := by
          rw [getO_popO_self]
        have hcol : popO (popO (popO (popO (popO (popO ann "kubectl.kubernetes.io/last-applied-configuration") "deployment.kubernetes.io/revision") "kubernetes.io/change-cause") "kubectl.kubernetes.io/last-applied-configuration") "deployment.kubernetes.io/revision") "kubernetes.io/change-cause" = (popO (popO (popO ann "kubectl.kubernetes.io/last-applied-configuration") "deployment.kubernetes.io/revision") "kubernetes.io/change-cause") := by
          rw [popO_of_getO_eq_none _ _ hcol1, popO_of_getO_eq_none _ _ hcol2,
            popO_of_getO_eq_none _ _ hcol3]
        rw [cleanAnnotations, hval]
        simp only []
        rw [hcol, if_neg (by simp [List.isEmpty_iff, hemp])]
        exact setO_of_getO_eq_some _ _ _ hval
    | str v2 =>
      have hBmd : cleanMetadataFields md = (popO (popO (popO (popO (popO md "creationTimestamp") "resourceVersion") "uid") "generation") "managedFields") := by
        rw [cleanMetadataFields, cleanAnnotations, hchain5.trans hann]
      rw [hBmd, cleanAnnotations, hchain5.trans hann]
    | int v2 =>
      have hBmd : cleanMetadataFields md = (popO (popO (popO (popO (popO md "creationTimestamp") "resourceVersion") "uid") "generation") "managedFields") := by
        rw [cleanMetadataFields, cleanAnnotations, hchain5.trans hann]
      rw [hBmd, cleanAnnotations, hchain5.trans hann]
    | bool v2 =>
      have hBmd : cleanMetadataFields md = (popO (popO (popO (popO (popO md "creationTimestamp") "resourceVersion") "uid") "generation") "managedFields") := by
        rw [cleanMetadataFields, cleanAnnotations, hchain5.trans hann]
      rw [hBmd, cleanAnnotations, hchain5.trans hann]
    | null =>
      have hBmd : cleanMetadataFields md = (popO (popO (popO (popO (popO md "creationTimestamp") "resourceVersion") "uid") "generation") "managedFields") := by
        rw [cleanMetadataFields, cleanAnnotations, hchain5.trans hann]
      rw [hBmd, cleanAnnotations, hchain5.trans hann]
    | arr v2 =>
      have hBmd : cleanMetadataFields md = (popO (popO (popO (popO (popO md "creationTimestamp") "resourceVersion") "uid") "generation") "managedFields") := by
        rw [cleanMetadataFields, cleanAnnotations, hchain5.trans hann]
      rw [hBmd, cleanAnnotations, hchain5.trans hann]

theorem cleanStsMetadataStep_obj (m md : Obj)
    (h : getO m "metadata" = some (.obj md)) :
    cleanStsMetadataStep m = setO m "metadata" (.obj (cleanMetadataFields md)) := by
  simp only [cleanStsMetadataStep, h]

theorem cleanStsMetadataStep_other (m : Obj)
    (h : ∀ md, getO m "metadata" ≠ some (.obj md)) :
    cleanStsMetadataStep m = m := by
  rw [cleanStsMetadataStep]
  split
  · rename_i md heq
    exact absurd heq (h md)
  · rfl

theorem cleanStsTemplateStep_obj (m sp : Obj)
    (h : getO m "spec" = some (.obj sp)) :
    cleanStsTemplateStep m = setO m "spec" (.obj (tplFix sp)) := by
  simp only [cleanStsTemplateStep, h]

theorem cleanStsTemplateStep_other (m : Obj)
    (h : ∀ sp, getO m "spec" ≠ some (.obj sp)) :
    cleanStsTemplateStep m = m := by
  rw [cleanStsTemplateStep]
  split
  · rename_i sp heq
    exact absurd heq (h sp)
  · rfl

theorem cleanStsSpecStep_obj (m sp : Obj)
    (h : getO m "spec" = some (.obj sp)) :
    cleanStsSpecStep m = setO m "spec" (.obj (popSpecStatusFields sp)) := by
  simp only [cleanStsSpecStep, h]

theorem cleanStsSpecStep_other (m : Obj)
    (h : ∀ sp, getO m "spec" ≠ some (.obj sp)) :
    cleanStsSpecStep m = m := by
  rw [cleanStsSpecStep]
  split
  · rename_i sp heq
    exact absurd heq (h sp)
  · rfl

theorem getO_cleanStsMetadataStep_ne (m : Obj) (k : String) (h : k ≠ "metadata") :
    getO (cleanStsMetadataStep m) k = getO m k := by
  rw [cleanStsMetadataStep]
  split
  · rw [getO_setO_ne _ _ _ _ h]
  · rfl

theorem getO_cleanStsTemplateStep_ne (m : Obj) (k : String) (h : k ≠ "spec") :
    getO (cleanStsTemplateStep m) k = getO m k := by
  rw [cleanStsTemplateStep]
  split
  · rw [getO_setO_ne _ _ _ _ h]
  · rfl

theorem getO_cleanStsSpecStep_ne (m : Obj) (k : String) (h : k ≠ "spec") :
    getO (cleanStsSpecStep m) k = getO m k := by
  rw [cleanStsSpecStep]
  split
  · rw [getO_setO_ne _ _ _ _ h]
  · rfl

theorem tplFix_obj (sp tpl tmd : Obj)
    (h1 : getO sp "template" = some (.obj tpl))
    (h2 : getO tpl "metadata" = some (.obj tmd)) :
    tplFix sp = setO sp "template" (.obj (setO tpl "metadata"
      (.obj (cleanMetadataFields tmd)))) := by
  simp only [tplFix, h1, h2]

theorem tplFix_noTpl (sp : Obj)
    (h : ∀ tpl, getO sp "template" ≠ some (.obj tpl)) : tplFix sp = sp := by
  rw [tplFix]
  split
  · rename_i tpl heq
    exact absurd heq (h tpl)
  · rfl

theorem tplFix_noTmd (sp tpl : Obj)
    (h1 : getO sp "template" = some (.obj tpl))
    (h2 : ∀ tmd, getO tpl "metadata" ≠ some (.obj tmd)) : tplFix sp = sp := by
  rw [tplFix]
  split
  · rename_i tpl2 heq
    have htpl2 : tpl = tpl2 := by
      rw [h1] at heq
      have := congrArg (fun o => match o with
        | some (Val.obj a) => a
        | _ => ([] : Obj)) heq
      simpa using this
    subst htpl2
    split
    · rename_i tmd heq2
      exact absurd heq2 (h2 tmd)
    · rfl
  · rfl

theorem popSpecStatusFields_idem (x : Obj) :
    popSpecStatusFields (popSpecStatusFields x) = popSpecStatusFields x := by
  have hf0 : getO (popSpecStatusFields x) "currentReplicas" = none := by
    rw [popSpecStatusFields]
    rw [getO_popO_ne _ _ _ (by decide), getO_popO_ne _ _ _ (by decide), getO_popO_ne _ _ _ (by decide), getO_popO_ne _ _ _ (by decide), getO_popO_ne _ _ _ (by decide), getO_popO_ne _ _ _ (by decide), getO_popO_self]
  have hf1 : getO (popSpecStatusFields x) "updatedReplicas" = none := by
    rw [popSpecStatusFields]
    rw [getO_popO_ne _ _ _ (by decide), getO_popO_ne _ _ _ (by decide), getO_popO_ne _ _ _ (by decide), getO_popO_ne _ _ _ (by decide), getO_popO_ne _ _ _ (by decide), getO_popO_self]
  have hf2 : getO (popSpecStatusFields x) "readyReplicas" = none := by
    rw [popSpecStatusFields]
    rw [getO_popO_ne _ _ _ (by decide), getO_popO_ne _ _ _ (by decide), getO_popO_ne _ _ _ (by decide), getO_popO_ne _ _ _ (by decide), getO_popO_self]
  have hf3 : getO (popSpecStatusFields x) "availableReplicas" = none := by
    rw [popSpecStatusFields]
    rw [getO_popO_ne _ _ _ (by decide), getO_popO_ne _ _ _ (by decide), getO_popO_ne _ _ _ (by decide), getO_popO_self]
  have hf4 : getO (popSpecStatusFields x) "observedGeneration" = none := by
    rw [popSpecStatusFields]
    rw [getO_popO_ne _ _ _ (by decide), getO_popO_ne _ _ _ (by decide), getO_popO_self]
  have hf5 : getO (popSpecStatusFields x) "collisionCount" = none := by
    rw [popSpecStatusFields]
    rw [getO_popO_ne _ _ _ (by decide), getO_popO_self]
  have hf6 : getO (popSpecStatusFields x) "conditions" = none := by
    rw [popSpecStatusFields]
    rw [getO_popO_self]
  conv =>
    lhs
    rw [popSpecStatusFields]
  rw [popO_of_getO_eq_none _ _ hf0, popO_of_getO_eq_none _ _ hf1, popO_of_getO_eq_none _ _ hf2, popO_of_getO_eq_none _ _ hf3, popO_of_getO_eq_none _ _ hf4, popO_of_getO_eq_none _ _ hf5, popO_of_getO_eq_none _ _ hf6]

theorem getO_popSpecStatusFields_template (x : Obj) :
    getO (popSpecStatusFields x) "template" = getO x "template" := by
  rw [popSpecStatusFields]
  rw [getO_popO_ne _ _ _ (by decide), getO_popO_ne _ _ _ (by decide), getO_popO_ne _ _ _ (by decide), getO_popO_ne _ _ _ (by decide), getO_popO_ne _ _ _ (by decide), getO_popO_ne _ _ _ (by decide), getO_popO_ne _ _ _ (by decide)]

theorem getO_popSpecStatusFields_selector (x : Obj) :
    getO (popSpecStatusFields x) "selector" = getO x "selector" := by
  rw [popSpecStatusFields]
  rw [getO_popO_ne _ _ _ (by decide), getO_popO_ne _ _ _ (by decide), getO_popO_ne _ _ _ (by decide), getO_popO_ne _ _ _ (by decide), getO_popO_ne _ _ _ (by decide), getO_popO_ne _ _ _ (by decide), getO_popO_ne _ _ _ (by decide)]

theorem tplFix_stable (sp : Obj) :
    tplFix (popSpecStatusFields (tplFix sp)) = popSpecStatusFields (tplFix sp) := by
  by_cases hex : ∃ tpl, getO sp "template" = some (.obj tpl)
  · obtain ⟨tpl, htpl⟩ := hex
    by_cases hex2 : ∃ tmd, getO tpl "metadata" = some (.obj tmd)
    · obtain ⟨tmd, htmd⟩ := hex2
      have hfix := tplFix_obj sp tpl tmd htpl htmd
      have htplA : getO (popSpecStatusFields (tplFix sp)) "template" =
          some (.obj (setO tpl "metadata" (.obj (cleanMetadataFields tmd)))) := by
        rw [getO_popSpecStatusFields_template, hfix, getO_setO_self]
      have htmdA : getO (setO tpl "metadata" (.obj (cleanMetadataFields tmd)))
          "metadata" = some (.obj (cleanMetadataFields tmd)) := getO_setO_self _ _ _
      rw [tplFix_obj _ _ _ htplA htmdA, cleanMetadataFields_idem,
        setO_of_getO_eq_some _ _ _ htmdA, setO_of_getO_eq_some _ _ _ htplA]
    · have hother : ∀ tmd, getO tpl "metadata" ≠ some (.obj tmd) := by
        push_neg at hex2
        exact hex2
      have hfix := tplFix_noTmd sp tpl htpl hother
      rw [hfix]
      have htplB : getO (popSpecStatusFields sp) "template" = some (.obj tpl) := by
        rw [getO_popSpecStatusFields_template]
        exact htpl
      exact tplFix_noTmd _ _ htplB hother
  · have hother : ∀ tpl, getO sp "template" ≠ some (.obj tpl) := by
      push_neg at hex
      exact hex
    have hfix := tplFix_noTpl sp hother
    rw [hfix]
    apply tplFix_noTpl
    intro tpl
    rw [getO_popSpecStatusFields_template]
    exact hother tpl

theorem clean_manifest_idem_aux (m : Obj) :
    clean_manifest (clean_manifest m) = clean_manifest m := by
  have hst : getO (clean_manifest m) "status" = none := by
    rw [clean_manifest, getO_popO_self]
  have hmdl : getO (clean_manifest m) "metadata" =
      getO (cleanStsMetadataStep m) "metadata" := by
    rw [clean_manifest, getO_popO_ne _ _ _ (by decide),
      getO_cleanStsSpecStep_ne _ _ (by decide),
      getO_cleanStsTemplateStep_ne _ _ (by decide)]
  have hSA : cleanStsMetadataStep (clean_manifest m) = clean_manifest m := by
    by_cases hex : ∃ md, getO m "metadata" = some (.obj md)
    · obtain ⟨md, hmd⟩ := hex
      have hval : getO (clean_manifest m) "metadata" =
          some (.obj (cleanMetadataFields md)) := by
        rw [hmdl, cleanStsMetadataStep_obj m md hmd, getO_setO_self]
      rw [cleanStsMetadataStep_obj _ _ hval, cleanMetadataFields_idem,
        setO_of_getO_eq_some _ _ _ hval]
    · have hother : ∀ md, getO m "metadata" ≠ some (.obj md) := by
        push_neg at hex
        exact hex
      apply cleanStsMetadataStep_other
      intro md hcontra
      rw [hmdl, cleanStsMetadataStep_other m hother] at hcontra
      exact hother md hcontra
  have hspl : getO (clean_manifest m) "spec" =
      getO (cleanStsSpecStep (cleanStsTemplateStep (cleanStsMetadataStep m)))
        "spec" := by
    rw [clean_manifest, getO_popO_ne _ _ _ (by decide)]
  by_cases hex : ∃ sp, getO m "spec" = some (.obj sp)
  · obtain ⟨sp, hsp⟩ := hex
    have hsp1 : getO (cleanStsMetadataStep m) "spec" = some (.obj sp) := by
      rw [getO_cleanStsMetadataStep_ne _ _ (by decide)]
      exact hsp
    have hsp2 : getO (cleanStsTemplateStep (cleanStsMetadataStep m)) "spec" =
        some (.obj (tplFix sp)) := by
      rw [cleanStsTemplateStep_obj _ _ hsp1, getO_setO_self]
    have hsp3 : getO (clean_manifest m) "spec" =
        some (.obj (popSpecStatusFields (tplFix sp))) := by
      rw [hspl, cleanStsSpecStep_obj _ _ hsp2, getO_setO_self]
    have hSB : cleanStsTemplateStep (clean_manifest m) = clean_manifest m := by
      rw [cleanStsTemplateStep_obj _ _ hsp3, tplFix_stable,
        setO_of_getO_eq_some _ _ _ hsp3]
    have hSC : cleanStsSpecStep (clean_manifest m) = clean_manifest m := by
      rw [cleanStsSpecStep_obj _ _ hsp3, popSpecStatusFields_idem,
        setO_of_getO_eq_some _ _ _ hsp3]
    conv =>
      lhs
      rw [clean_manifest]
    rw [hSA, hSB, hSC, popO_of_getO_eq_none _ _ hst]
  · have hother : ∀ sp, getO m "spec" ≠ some (.obj sp) := by
      push_neg at hex
      exact hex
    have hspKeep : getO (clean_manifest m) "spec" = getO m "spec" := by
      rw [hspl, cleanStsSpecStep_other, cleanStsTemplateStep_other,
        getO_cleanStsMetadataStep_ne _ _ (by decide)]
      · intro sp hcontra
        rw [getO_cleanStsMetadataStep_ne _ _ (by decide)] at hcontra
        exact hother sp hcontra
      · intro sp hcontra
        rw [cleanStsTemplateStep_other, getO_cleanStsMetadataStep_ne _ _ (by decide)]
          at hcontra
        · exact hother sp hcontra
        · intro sp2 hcontra2
          rw [getO_cleanStsMetadataStep_ne _ _ (by decide)] at hcontra2
          exact hother sp2 hcontra2
    have hSB : cleanStsTemplateStep (clean_manifest m) = clean_manifest m := by
      apply cleanStsTemplateStep_other
      intro sp hcontra
      rw [hspKeep] at hcontra
      exact hother sp hcontra
    have hSC : cleanStsSpecStep (clean_manifest m) = clean_manifest m := by
      apply cleanStsSpecStep_other
      intro sp hcontra
      rw [hspKeep] at hcontra
      exact hother sp hcontra
    conv =>
      lhs
      rw [clean_manifest]
    rw [hSA, hSB, hSC, popO_of_getO_eq_none _ _ hst]

/-- A manifest already in job-sanitized form is a fixed point of the
job-kind sanitize step. -/
theorem cleanupJobManifest_stable
    (R md' sp' tpl' tmd' : Obj)
    (hmd : getO R "metadata" = some (.obj md'))
    (hsp : getO R "spec" = some (.obj sp'))
    (htpl : getO sp' "template" = some (.obj tpl'))
    (htmd : getO tpl' "metadata" = some (.obj tmd'))
    (hst : getO R "status" = none)
    (hml : getO R "matchLabels" = none)
    (hsl : getO R "selector" = none)
    (h1 : getO md' "creationTimestamp" = none)
    (h2 : getO md' "resourceVersion" = none)
    (h3 : getO md' "uid" = none)
    (h4 : getO md' "generation" = none)
    (h5 : getO md' "labels" = none)
    (hann : getO md' "annotations" = none ∨
      ∃ ann', getO md' "annotations" = some (.obj ann') ∧
        getO ann' "kubectl.kubernetes.io/last-applied-configuration" = none)
    (hsel : getO sp' "selector" = none)
    (hlab : getO tmd' "labels" = none) :
    cleanupJobManifest R = .ok R := by
  have hpop5 : popO (popO (popO (popO (popO md' "creationTimestamp")
      "resourceVersion") "uid") "generation") "labels" = md' := by
    rw [popO_of_getO_eq_none _ _ h1, popO_of_getO_eq_none _ _ h2,
      popO_of_getO_eq_none _ _ h3, popO_of_getO_eq_none _ _ h4,
      popO_of_getO_eq_none _ _ h5]
  have hsetmd : setO R "metadata" (.obj md') = R := setO_of_getO_eq_some _ _ _ hmd
  have htmdcol : popO tmd' "labels" = tmd' := popO_of_getO_eq_none _ _ hlab
  have hsettmd : setO tpl' "metadata" (.obj tmd') = tpl' :=
    setO_of_getO_eq_some _ _ _ htmd
  have hsettpl : setO sp' "template" (.obj tpl') = sp' :=
    setO_of_getO_eq_some _ _ _ htpl
  have hsetsp : setO R "spec" (.obj sp') = R := setO_of_getO_eq_some _ _ _ hsp
  have hselcol : popO sp' "selector" = sp' := popO_of_getO_eq_none _ _ hsel
  have hpopst : popO R "status" = R := popO_of_getO_eq_none _ _ hst
  have hpopml : popO R "matchLabels" = R := popO_of_getO_eq_none _ _ hml
  have hpopsl : popO R "selector" = R := popO_of_getO_eq_none _ _ hsl
  have hkey : hasKey R "metadata" = true := by
    rw [hasKey_eq_isSome_getO, hmd]; rfl
  rcases hann with hannN | ⟨ann', hannS, hannL⟩
  · have hcase : hasKey md' "annotations" = false := by
      rw [hasKey_eq_isSome_getO, hannN]; rfl
    simp [cleanupJobManifest, bind, Except.bind, pure, Except.pure, getObjE,
      hkey, hmd, hpop5, hsetmd, hsp, htpl, htmd, htmdcol, hsettmd, hsettpl,
      hsetsp, hselcol, hcase, hpopst, hpopml, hpopsl]
  · have hcase : hasKey md' "annotations" = true := by
      rw [hasKey_eq_isSome_getO, hannS]; rfl
    have hanncol : popO ann' "kubectl.kubernetes.io/last-applied-configuration" = ann' := popO_of_getO_eq_none _ _ hannL
    have hsetann : setO md' "annotations" (.obj ann') = md' :=
      setO_of_getO_eq_some _ _ _ hannS
    simp [cleanupJobManifest, bind, Except.bind, pure, Except.pure, getObjE,
      hkey, hmd, hpop5, hsetmd, hsp, htpl, htmd, htmdcol, hsettmd, hsettpl,
      hsetsp, hselcol, hcase, hannS, hanncol, hsetann, hpopst, hpopml, hpopsl]

/-- Claim C5: both sanitize operations are idempotent on well-formed
descriptors — the replica-set-kind clean_manifest unconditionally, the
job-kind sanitize step in the sense that a second run on a successful
output succeeds and changes nothing. -/
theorem c5_sanitize_idempotent :
    (∀ m : Obj, clean_manifest (clean_manifest m) = clean_manifest m)
    ∧ (∀ (m md sp tpl tmd : Obj),
      getO m "metadata" = some (.obj md) →
      getO m "spec" = some (.obj sp) →
      getO sp "template" = some (.obj tpl) →
      getO tpl "metadata" = some (.obj tmd) →
      (getO md "annotations" = none ∨
        ∃ ann, getO md "annotations" = some (.obj ann)) →
      ∀ m', cleanupJobManifest m = .ok m' → cleanupJobManifest m' = .ok m') := by
  constructor
  · exact clean_manifest_idem_aux
  · intro m md sp tpl tmd hmd hsp htpl htmd hann m' hm'
    obtain ⟨R, hrun, hst, hml, hsl,
      ⟨md', hmdR, b1, b2, b3, b4, b5, b6, b7, b8⟩,
      ⟨sp', tpl', tmd', hspR, hselR, htplR, htmdR, hlabR, hcr, hrv⟩⟩ :=
      cleanupJobManifest_fields m md sp tpl tmd hmd hsp htpl htmd hann
    have hReq : R = m' := by
      rw [hrun] at hm'
      cases hm'
      rfl
    subst hReq
    have hann2 : getO md' "annotations" = none ∨
        ∃ ann', getO md' "annotations" = some (.obj ann') ∧
          getO ann' "kubectl.kubernetes.io/last-applied-configuration" = none := by
      rcases hann with hN | ⟨ann, hS⟩
      · exact Or.inl (b7 hN)
      · exact Or.inr ⟨popO ann "kubectl.kubernetes.io/last-applied-configuration", b8 ann hS, getO_popO_self _ _⟩
    exact cleanupJobManifest_stable R md' sp' tpl' tmd' hmdR hspR htplR htmdR
      hst hml hsl b1 b2 b3 b4 b5 hann2 hselR hlabR

/-- Witness for C5 at concrete manifests of both kinds. -/
theorem c5_witness :
    clean_manifest (clean_manifest c1StsManifest) = clean_manifest c1StsManifest
    ∧ cleanupJobManifest noEnvManifest = .ok noEnvManifest := by
  constructor
  · exact c5_sanitize_idempotent.1 c1StsManifest
  · exact c5_sanitize_idempotent.2 noEnvManifest
      [("name", Val.str "myjob")]
      [("template", .obj [("metadata", .obj []),
        ("spec", .obj [("containers", .arr [.obj [("image", .str "img:v1")]])])])]
      [("metadata", .obj []),
       ("spec", .obj [("containers", .arr [.obj [("image", .str "img:v1")]])])]
      []
      rfl rfl rfl rfl (Or.inl rfl) noEnvManifest rfl

/-- `findEnvVar` returns an entry of the list, at its index. -/
theorem findEnvVar_get (name : String) :
    ∀ (envs : List Val) (s i : Nat) (e : Obj),
      findEnvVar name envs s = .ok (some (i, e)) →
      envs[i - s]? = some (.obj e) := by
  intro envs
  induction envs with
  | nil => intro s i e h; simp [findEnvVar] at h
  | cons x t ih =>
    intro s i e h
    cases x with
    | obj eo =>
      rw [findEnvVar] at h
      split at h
      · rename_i n heq
        split at h
        · rename_i hn
          simp only [Except.ok.injEq, Option.some.injEq, Prod.mk.injEq] at h
          have hzero : i - s = 0 := by omega
          rw [hzero, h.2]
          simp
        · rename_i hn
          have hle := findEnvVar_start_le name t (s + 1) i e h
          have hpos : i - s = (i - (s + 1)) + 1 := by omega
          rw [hpos]
          simpa using ih (s + 1) i e h
      · rename_i v hne hv
        have hle := findEnvVar_start_le name t (s + 1) i e h
        have hpos : i - s = (i - (s + 1)) + 1 := by omega
        rw [hpos]
        simpa using ih (s + 1) i e h
      · exact absurd h (by simp)
    | str v => simp [findEnvVar] at h
    | int v => simp [findEnvVar] at h
    | bool v => simp [findEnvVar] at h
    | null => simp [findEnvVar] at h
    | arr v => simp [findEnvVar] at h

/-- Success inversion for the env upsert: the container is unchanged, an
existing entry's value was replaced in place, or a new pair was appended;
in every case only the `env` key differs and other entries survive at
their indices. -/
theorem upsertEnv_cases (c : Obj) (name value : String) (c2 : Obj)
    (h : upsertEnv c name value = .ok c2) :
    c2 = c ∨
    (∃ envs i e x, getO c "env" = some (.arr envs) ∧
      findEnvVar name envs 0 = .ok (some (i, e)) ∧
      c2 = setO c "env" (.arr (envs.set i (.obj (setO e "value" x))))) ∨
    (∃ envs, getO c "env" = some (.arr envs) ∧
      c2 = setO c "env" (.arr (envs ++
        [Val.obj [("name", .str name), ("value", .str value)]]))) := by
  rw [upsertEnv] at h
  simp only [bind, Except.bind, pure, Except.pure] at h
  cases henv : getO c "env" with
  | none =>
    rw [henv] at h
    simp only [findEnvVar] at h
    simp at h
  | some v =>
    cases v with
    | arr envs =>
      rw [henv] at h
      simp only [] at h
      cases hfind : findEnvVar name envs 0 with
      | error e0 =>
        rw [hfind] at h
        simp at h
      | ok r =>
        rw [hfind] at h
        simp only [] at h
        cases r with
        | none =>
          simp only [Except.ok.injEq] at h
          exact Or.inr (Or.inr ⟨envs, rfl, h.symm⟩)
        | some ie =>
          obtain ⟨i, e⟩ := ie
          simp only [] at h
          cases hval : getO e "value" with
          | none =>
            rw [hval] at h
            simp at h
          | some v2 =>
            cases v2 with
            | str cur =>
              rw [hval] at h
              simp only [] at h
              by_cases hsp : strHasChar cur ' ' = true
              · rw [if_pos hsp] at h
                by_cases hmem : value ∈ pySplit cur
                · rw [if_pos hmem] at h
                  simp only [Except.ok.injEq] at h
                  exact Or.inl h.symm
                · rw [if_neg hmem] at h
                  simp only [Except.ok.injEq] at h
                  exact Or.inr (Or.inl ⟨envs, i, e, _, rfl, hfind, h.symm⟩)
              · rw [if_neg hsp] at h
                simp only [Except.ok.injEq] at h
                exact Or.inr (Or.inl ⟨envs, i, e, _, rfl, hfind, h.symm⟩)
            | int v3 =>
              rw [hval] at h
              simp at h
            | bool v3 =>
              rw [hval] at h
              simp at h
            | null =>
              rw [hval] at h
              simp at h
            | arr v3 =>
              rw [hval] at h
              simp at h
            | obj v3 =>
              rw [hval] at h
              simp at h
    | str v2 =>
      rw [henv] at h
      simp at h
    | int v2 =>
      rw [henv] at h
      simp at h
    | bool v2 =>
      rw [henv] at h
      simp at h
    | null =>
      rw [henv] at h
      simp at h
    | obj v2 =>
      rw [henv] at h
      simp at h

/-- The env upsert changes at most the `env` key of the container. -/
theorem upsertEnv_frame (c : Obj) (name value : String) (c2 : Obj)
    (h : upsertEnv c name value = .ok c2) :
    ∀ k, k ≠ "env" → getO c2 k = getO c k := by
  intro k hk
  rcases upsertEnv_cases c name value c2 h with hc | ⟨envs, i, e, x, _, _, hc⟩ |
    ⟨envs, _, hc⟩
  · rw [hc]
  · rw [hc, getO_setO_ne _ _ _ _ hk]
  · rw [hc, getO_setO_ne _ _ _ _ hk]

/-- Env entries whose name differs from the upserted one keep their index
and value. -/
theorem upsertEnv_other_entries (c : Obj) (name value : String) (c2 : Obj)
    (h : upsertEnv c name value = .ok c2) :
    getO c2 "env" = getO c "env" ∨
    (∃ envs envs2, getO c "env" = some (.arr envs) ∧
      getO c2 "env" = some (.arr envs2) ∧
      ∀ (i : Nat) (y : Val), envs[i]? = some y →
        (∀ e2, y = .obj e2 → getO e2 "name" ≠ some (.str name)) →
        envs2[i]? = some y) := by
  rcases upsertEnv_cases c name value c2 h with hc | ⟨envs, i, e, x, henv, hfind, hc⟩ |
    ⟨envs, henv, hc⟩
  · rw [hc]
    exact Or.inl rfl
  · refine Or.inr ⟨envs, envs.set i (.obj (setO e "value" x)), henv, ?_, ?_⟩
    · rw [hc, getO_setO_self]
    · intro j y hj hname
      have hget := findEnvVar_get name envs 0 i e hfind
      simp only [Nat.sub_zero] at hget
      have hne : j ≠ i := by
        intro hji
        subst hji
        rw [hj] at hget
        have hy : y = .obj e := by
          cases hget
          rfl
        exact hname e hy (findEnvVar_name name envs 0 j e hfind)
      rw [List.getElem?_set_ne (fun hh => hne hh.symm)]
      exact hj
  · refine Or.inr ⟨envs, envs ++ [Val.obj [("name", .str name), ("value", .str value)]],
      henv, ?_, ?_⟩
    · rw [hc, getO_setO_self]
    · intro j y hj _
      have hlt : j < envs.length := (List.getElem?_eq_some.mp hj).1
      rw [List.getElem?_append, if_pos hlt]
      exact hj

/-- Success inversion of the container-mutation step on a well-formed
manifest: the first container got its image rewritten and possibly the
env upsert, the tail of the containers sequence and everything outside
the containers path is written back untouched. -/
theorem mutateJobContainer_run
    (m sp tpl ps c : Obj) (cs : List Val) (img : String)
    (envN envV : Option String) (mm : Obj)
    (hsp : getO m "spec" = some (.obj sp))
    (htpl : getO sp "template" = some (.obj tpl))
    (hps : getO tpl "spec" = some (.obj ps))
    (hcont : getO ps "containers" = some (.arr (.obj c :: cs)))
    (himg : getO c "image" = some (.str img))
    (hrun : mutateJobContainer m envN envV = .ok mm) :
    ∃ c2, mm = setO m "spec" (.obj (setO sp "template" (.obj (setO tpl "spec"
        (.obj (setO ps "containers" (.arr (.obj c2 :: cs))))))))
      ∧ (c2 = setO c "image" (.str (setLatestTag img)) ∨
         upsertEnv (setO c "image" (.str (setLatestTag img)))
           (envN.getD "") (envV.getD "") = .ok c2) := by
  rw [mutateJobContainer] at hrun
  simp only [bind, Except.bind, pure, Except.pure, getObjE, hsp, htpl, hps,
    hcont, himg] at hrun
  by_cases hguard : (truthy envN && truthy envV) = true
  · rw [if_pos hguard] at hrun
    cases hup : upsertEnv (setO c "image" (.str (setLatestTag img)))
        (envN.getD "") (envV.getD "") with
    | error e0 =>
      rw [hup] at hrun
      simp at hrun
    | ok c2 =>
      rw [hup] at hrun
      simp only [Except.ok.injEq] at hrun
      exact ⟨c2, hrun.symm, Or.inr rfl⟩
  · rw [if_neg hguard] at hrun
    simp only [Except.ok.injEq] at hrun
    exact ⟨setO c "image" (.str (setLatestTag img)), hrun.symm, Or.inl rfl⟩

/-- The job-kind sanitize step's explicit output on a well-formed
manifest whose metadata has no annotations mapping. -/
theorem cleanupJobManifest_run_none
    (m md sp tpl tmd : Obj)
    (hmd : getO m "metadata" = some (.obj md))
    (hsp : getO m "spec" = some (.obj sp))
    (htpl : getO sp "template" = some (.obj tpl))
    (htmd : getO tpl "metadata" = some (.obj tmd))
    (hannN : getO md "annotations" = none) :
    cleanupJobManifest m = .ok (popO (popO (popO (setO (setO (setO m "metadata" (.obj (popO (popO (popO (popO (popO md "creationTimestamp") "resourceVersion") "uid") "generation") "labels"))) "spec" (.obj (setO sp "template" (.obj (setO tpl "metadata" (.obj (popO tmd "labels"))))))) "spec" (.obj (popO (setO sp "template" (.obj (setO tpl "metadata" (.obj (popO tmd "labels"))))) "selector"))) "status") "matchLabels") "selector") := by
  have hkey : hasKey m "metadata" = true := by
    rw [hasKey_eq_isSome_getO, hmd]; rfl
  have hEA : getO (setO m "metadata" (.obj (popO (popO (popO (popO (popO md "creationTimestamp") "resourceVersion") "uid") "generation") "labels"))) "spec" = some (.obj sp) := by
    rw [getO_setO_ne _ _ _ _ (by decide)]; exact hsp
  have hEB : getO (setO (setO m "metadata" (.obj (popO (popO (popO (popO (popO md "creationTimestamp") "resourceVersion") "uid") "generation") "labels"))) "spec" (.obj (setO sp "template" (.obj (setO tpl "metadata" (.obj (popO tmd "labels"))))))) "spec" = some (.obj (setO sp "template" (.obj (setO tpl "metadata" (.obj (popO tmd "labels")))))) := getO_setO_self _ _ _
  have hEC : getO (setO (setO (setO m "metadata" (.obj (popO (popO (popO (popO (popO md "creationTimestamp") "resourceVersion") "uid") "generation") "labels"))) "spec" (.obj (setO sp "template" (.obj (setO tpl "metadata" (.obj (popO tmd "labels"))))))) "spec" (.obj (popO (setO sp "template" (.obj (setO tpl "metadata" (.obj (popO tmd "labels"))))) "selector"))) "metadata" = some (.obj (popO (popO (popO (popO (popO md "creationTimestamp") "resourceVersion") "uid") "generation") "labels")) := by
    rw [getO_setO_ne _ _ _ _ (by decide), getO_setO_ne _ _ _ _ (by decide),
      getO_setO_self]
  have hannchain : getO (popO (popO (popO (popO (popO md "creationTimestamp") "resourceVersion") "uid") "generation") "labels") "annotations" = getO md "annotations" := by
    rw [getO_popO_ne _ _ _ (by decide), getO_popO_ne _ _ _ (by decide),
      getO_popO_ne _ _ _ (by decide), getO_popO_ne _ _ _ (by decide),
      getO_popO_ne _ _ _ (by decide)]
  have hcase : hasKey (popO (popO (popO (popO (popO md "creationTimestamp") "resourceVersion") "uid") "generation") "labels") "annotations" = false := by
    rw [hasKey_eq_isSome_getO, hannchain, hannN]; rfl
  simp [cleanupJobManifest, bind, Except.bind, pure, Except.pure, getObjE,
    hkey, hmd, hEA, htpl, htmd, hEB, hEC, hcase]

/-- The job-kind sanitize step's explicit output on a well-formed
manifest whose metadata carries an annotations mapping. -/
theorem cleanupJobManifest_run_some
    (m md sp tpl tmd ann : Obj)
    (hmd : getO m "metadata" = some (.obj md))
    (hsp : getO m "spec" = some (.obj sp))
    (htpl : getO sp "template" = some (.obj tpl))
    (htmd : getO tpl "metadata" = some (.obj tmd))
    (hannS : getO md "annotations" = some (.obj ann)) :
    cleanupJobManifest m = .ok (popO (popO (popO (setO (setO (setO (setO m "metadata" (.obj (popO (popO (popO (popO (popO md "creationTimestamp") "resourceVersion") "uid") "generation") "labels"))) "spec" (.obj (setO sp "template" (.obj (setO tpl "metadata" (.obj (popO tmd "labels"))))))) "spec" (.obj (popO (setO sp "template" (.obj (setO tpl "metadata" (.obj (popO tmd "labels"))))) "selector"))) "metadata" (.obj (setO (popO (popO (popO (popO (popO md "creationTimestamp") "resourceVersion") "uid") "generation") "labels") "annotations" (.obj (popO ann "kubectl.kubernetes.io/last-applied-configuration"))))) "status") "matchLabels") "selector") := by
  have hkey : hasKey m "metadata" = true := by
    rw [hasKey_eq_isSome_getO, hmd]; rfl
  have hEA : getO (setO m "metadata" (.obj (popO (popO (popO (popO (popO md "creationTimestamp") "resourceVersion") "uid") "generation") "labels"))) "spec" = some (.obj sp) := by
    rw [getO_setO_ne _ _ _ _ (by decide)]; exact hsp
  have hEB : getO (setO (setO m "metadata" (.obj (popO (popO (popO (popO (popO md "creationTimestamp") "resourceVersion") "uid") "generation") "labels"))) "spec" (.obj (setO sp "template" (.obj (setO tpl "metadata" (.obj (popO tmd "labels"))))))) "spec" = some (.obj (setO sp "template" (.obj (setO tpl "metadata" (.obj (popO tmd "labels")))))) := getO_setO_self _ _ _
  have hEC : getO (setO (setO (setO m "metadata" (.obj (popO (popO (popO (popO (popO md "creationTimestamp") "resourceVersion") "uid") "generation") "labels"))) "spec" (.obj (setO sp "template" (.obj (setO tpl "metadata" (.obj (popO tmd "labels"))))))) "spec" (.obj (popO (setO sp "template" (.obj (setO tpl "metadata" (.obj (popO tmd "labels"))))) "selector"))) "metadata" = some (.obj (popO (popO (popO (popO (popO md "creationTimestamp") "resourceVersion") "uid") "generation") "labels")) := by
    rw [getO_setO_ne _ _ _ _ (by decide), getO_setO_ne _ _ _ _ (by decide),
      getO_setO_self]
  have hannchain : getO (popO (popO (popO (popO (popO md "creationTimestamp") "resourceVersion") "uid") "generation") "labels") "annotations" = getO md "annotations" := by
    rw [getO_popO_ne _ _ _ (by decide), getO_popO_ne _ _ _ (by decide),
      getO_popO_ne _ _ _ (by decide), getO_popO_ne _ _ _ (by decide),
      getO_popO_ne _ _ _ (by decide)]
  have hcase : hasKey (popO (popO (popO (popO (popO md "creationTimestamp") "resourceVersion") "uid") "generation") "labels") "annotations" = true := by
    rw [hasKey_eq_isSome_getO, hannchain, hannS]; rfl
  have hED : getO (popO (popO (popO (popO (popO md "creationTimestamp") "resourceVersion") "uid") "generation") "labels") "annotations" = some (.obj ann) := hannchain.trans hannS
  simp [cleanupJobManifest, bind, Except.bind, pure, Except.pure, getObjE,
    hkey, hmd, hEA, htpl, htmd, hEB, hEC, hcase, hED]

theorem cleanMetadataFields_frame (md : Obj) (k : String)
    (n1 : k ≠ "creationTimestamp") (n2 : k ≠ "resourceVersion")
    (n3 : k ≠ "uid") (n4 : k ≠ "generation") (n5 : k ≠ "managedFields")
    (n6 : k ≠ "annotations") :
    getO (cleanMetadataFields md) k = getO md k := by
  rw [cleanMetadataFields, getO_cleanAnnotations_ne _ _ n6,
    getO_popO_ne _ _ _ n5, getO_popO_ne _ _ _ n4, getO_popO_ne _ _ _ n3,
    getO_popO_ne _ _ _ n2, getO_popO_ne _ _ _ n1]

theorem getO_tplFix_ne (sp : Obj) (k : String) (h : k ≠ "template") :
    getO (tplFix sp) k = getO sp k := by
  rw [tplFix]
  split
  · split
    · rw [getO_setO_ne _ _ _ _ h]
    · rfl
  · rfl

theorem getO_popSpecStatusFields_ne (sp : Obj) (k : String)
    (n1 : k ≠ "currentReplicas") (n2 : k ≠ "updatedReplicas")
    (n3 : k ≠ "readyReplicas") (n4 : k ≠ "availableReplicas")
    (n5 : k ≠ "observedGeneration") (n6 : k ≠ "collisionCount")
    (n7 : k ≠ "conditions") :
    getO (popSpecStatusFields sp) k = getO sp k := by
  rw [popSpecStatusFields, getO_popO_ne _ _ _ n7, getO_popO_ne _ _ _ n6,
    getO_popO_ne _ _ _ n5, getO_popO_ne _ _ _ n4, getO_popO_ne _ _ _ n3,
    getO_popO_ne _ _ _ n2, getO_popO_ne _ _ _ n1]

/-- Frame theorem for the job-kind pipeline on a well-formed manifest:
only the documented paths change, every other key at every level is
preserved, and `spec.template.spec.containers` survives with its tail
intact. -/
theorem update_job_manifest_frame
    (m md sp tpl tmd ps c : Obj) (cs : List Val) (img : String)
    (envN envV : Option String) (m2 : Obj)
    (hmd : getO m "metadata" = some (.obj md))
    (hsp : getO m "spec" = some (.obj sp))
    (htpl : getO sp "template" = some (.obj tpl))
    (htmd : getO tpl "metadata" = some (.obj tmd))
    (hps : getO tpl "spec" = some (.obj ps))
    (hcont : getO ps "containers" = some (.arr (.obj c :: cs)))
    (himg : getO c "image" = some (.str img))
    (hannWF : getO md "annotations" = none ∨
      ∃ ann, getO md "annotations" = some (.obj ann))
    (hnoML : getO m "matchLabels" = none)
    (hnoSel : getO m "selector" = none)
    (hrun : update_job_manifest m envN envV = .ok m2) :
    ∃ md2 sp2 tpl2 tmd2 ps2 c2,
      (∀ k, k ≠ "metadata" → k ≠ "spec" → k ≠ "status" →
        getO m2 k = getO m k) ∧
      getO m2 "metadata" = some (.obj md2) ∧
      (∀ k, k ≠ "creationTimestamp" → k ≠ "resourceVersion" → k ≠ "uid" →
        k ≠ "generation" → k ≠ "labels" → k ≠ "annotations" →
        getO md2 k = getO md k) ∧
      ((getO md "annotations" = none → getO md2 "annotations" = none) ∧
       (∀ ann0, getO md "annotations" = some (.obj ann0) →
         ∃ ann2, getO md2 "annotations" = some (.obj ann2) ∧
           ∀ k2, k2 ≠ "kubectl.kubernetes.io/last-applied-configuration" →
             getO ann2 k2 = getO ann0 k2)) ∧
      getO m2 "spec" = some (.obj sp2) ∧
      (∀ k, k ≠ "template" → k ≠ "selector" → getO sp2 k = getO sp k) ∧
      getO sp2 "template" = some (.obj tpl2) ∧
      (∀ k, k ≠ "metadata" → k ≠ "spec" → getO tpl2 k = getO tpl k) ∧
      getO tpl2 "metadata" = some (.obj tmd2) ∧
      (∀ k, k ≠ "labels" → getO tmd2 k = getO tmd k) ∧
      getO tpl2 "spec" = some (.obj ps2) ∧
      (∀ k, k ≠ "containers" → getO ps2 k = getO ps k) ∧
      getO ps2 "containers" = some (.arr (.obj c2 :: cs)) ∧
      (∀ k, k ≠ "image" → k ≠ "env" → getO c2 k = getO c k) ∧
      (getO c2 "env" = getO c "env" ∨
        (∃ envs envs2, getO c "env" = some (.arr envs) ∧
          getO c2 "env" = some (.arr envs2) ∧
          ∀ (i : Nat) (y : Val), envs[i]? = some y →
            (∀ e2, y = .obj e2 → getO e2 "name" ≠ some (.str (Option.getD envN ""))) →
            envs2[i]? = some y)) := by
  rw [update_job_manifest] at hrun
  cases hmut : mutateJobContainer m envN envV with
  | error e0 =>
    rw [hmut] at hrun
    exact absurd hrun (by simp [Except.bind])
  | ok mm =>
    rw [hmut] at hrun
    simp only [Except.bind] at hrun
    obtain ⟨c2, hmmEq, hc2⟩ :=
      mutateJobContainer_run m sp tpl ps c cs img envN envV mm hsp htpl hps hcont himg hmut
    have hmdMM : getO mm "metadata" = some (.obj md) := by
      rw [hmmEq, getO_setO_ne _ _ _ _ (by decide)]
      exact hmd
    have hspMM : getO mm "spec" = some (.obj (setO sp "template" (.obj (setO tpl "spec" (.obj (setO ps "containers" (.arr (.obj c2 :: cs)))))))) := by
      rw [hmmEq]
      exact getO_setO_self _ _ _
    have htplMM : getO (setO sp "template" (.obj (setO tpl "spec" (.obj (setO ps "containers" (.arr (.obj c2 :: cs))))))) "template" = some (.obj (setO tpl "spec" (.obj (setO ps "containers" (.arr (.obj c2 :: cs)))))) :=
      getO_setO_self _ _ _
    have htmdMM : getO (setO tpl "spec" (.obj (setO ps "containers" (.arr (.obj c2 :: cs))))) "metadata" = some (.obj tmd) := by
      rw [getO_setO_ne _ _ _ _ (by decide)]
      exact htmd
    have hstruct : ∃ X md2,
        m2 = popO (popO (popO X "status") "matchLabels") "selector" ∧
        getO X "metadata" = some (.obj md2) ∧
        (∀ k, k ≠ "creationTimestamp" → k ≠ "resourceVersion" → k ≠ "uid" →
          k ≠ "generation" → k ≠ "labels" → k ≠ "annotations" →
          getO md2 k = getO md k) ∧
        (getO md "annotations" = none → getO md2 "annotations" = none) ∧
        (∀ ann0, getO md "annotations" = some (.obj ann0) →
          ∃ ann2, getO md2 "annotations" = some (.obj ann2) ∧
            ∀ k2, k2 ≠ "kubectl.kubernetes.io/last-applied-configuration" →
              getO ann2 k2 = getO ann0 k2) ∧
        getO X "spec" = some (.obj (popO (setO (setO sp "template" (.obj (setO tpl "spec" (.obj (setO ps "containers" (.arr (.obj c2 :: cs))))))) "template" (.obj (setO (setO tpl "spec" (.obj (setO ps "containers" (.arr (.obj c2 :: cs))))) "metadata" (.obj (popO tmd "labels"))))) "selector")) ∧
        (∀ k, k ≠ "metadata" → k ≠ "spec" → getO X k = getO mm k) := by
      rcases hannWF with hann | ⟨ann, hann⟩
      · have hcl := cleanupJobManifest_run_none mm md (setO sp "template" (.obj (setO tpl "spec" (.obj (setO ps "containers" (.arr (.obj c2 :: cs))))))) (setO tpl "spec" (.obj (setO ps "containers" (.arr (.obj c2 :: cs))))) tmd
          hmdMM hspMM htplMM htmdMM hann
        rw [hcl] at hrun
        simp only [Except.ok.injEq] at hrun
        refine ⟨(setO (setO (setO mm "metadata" (.obj (popO (popO (popO (popO (popO md "creationTimestamp") "resourceVersion") "uid") "generation") "labels"))) "spec" (.obj (setO (setO sp "template" (.obj (setO tpl "spec" (.obj (setO ps "containers" (.arr (.obj c2 :: cs))))))) "template" (.obj (setO (setO tpl "spec" (.obj (setO ps "containers" (.arr (.obj c2 :: cs))))) "metadata" (.obj (popO tmd "labels"))))))) "spec" (.obj (popO (setO (setO sp "template" (.obj (setO tpl "spec" (.obj (setO ps "containers" (.arr (.obj c2 :: cs))))))) "template" (.obj (setO (setO tpl "spec" (.obj (setO ps "containers" (.arr (.obj c2 :: cs))))) "metadata" (.obj (popO tmd "labels"))))) "selector"))), (popO (popO (popO (popO (popO md "creationTimestamp") "resourceVersion") "uid") "generation") "labels"), hrun.symm, ?_, ?_, ?_, ?_, ?_, ?_⟩
        · rw [getO_setO_ne _ _ _ _ (by decide), getO_setO_ne _ _ _ _ (by decide)]
          exact getO_setO_self _ _ _
        · intro k n1 n2 n3 n4 n5 _
          rw [getO_popO_ne _ _ _ n5, getO_popO_ne _ _ _ n4, getO_popO_ne _ _ _ n3,
            getO_popO_ne _ _ _ n2, getO_popO_ne _ _ _ n1]
        · intro _
          rw [getO_popO_ne _ _ _ (by decide), getO_popO_ne _ _ _ (by decide),
            getO_popO_ne _ _ _ (by decide), getO_popO_ne _ _ _ (by decide),
            getO_popO_ne _ _ _ (by decide)]
          exact hann
        · intro ann0 hc
          rw [hann] at hc
          exact absurd hc (by simp)
        · exact getO_setO_self _ _ _
        · intro k h1 h2
          rw [getO_setO_ne _ _ _ _ h2, getO_setO_ne _ _ _ _ h2,
            getO_setO_ne _ _ _ _ h1]
      · have hcl := cleanupJobManifest_run_some mm md (setO sp "template" (.obj (setO tpl "spec" (.obj (setO ps "containers" (.arr (.obj c2 :: cs))))))) (setO tpl "spec" (.obj (setO ps "containers" (.arr (.obj c2 :: cs))))) tmd ann
          hmdMM hspMM htplMM htmdMM hann
        rw [hcl] at hrun
        simp only [Except.ok.injEq] at hrun
        refine ⟨setO (setO (setO (setO mm "metadata" (.obj (popO (popO (popO (popO (popO md "creationTimestamp") "resourceVersion") "uid") "generation") "labels"))) "spec" (.obj (setO (setO sp "template" (.obj (setO tpl "spec" (.obj (setO ps "containers" (.arr (.obj c2 :: cs))))))) "template" (.obj (setO (setO tpl "spec" (.obj (setO ps "containers" (.arr (.obj c2 :: cs))))) "metadata" (.obj (popO tmd "labels"))))))) "spec" (.obj (popO (setO (setO sp "template" (.obj (setO tpl "spec" (.obj (setO ps "containers" (.arr (.obj c2 :: cs))))))) "template" (.obj (setO (setO tpl "spec" (.obj (setO ps "containers" (.arr (.obj c2 :: cs))))) "metadata" (.obj (popO tmd "labels"))))) "selector"))) "metadata" (.obj (setO (popO (popO (popO (popO (popO md "creationTimestamp") "resourceVersion") "uid") "generation") "labels") "annotations" (.obj (popO ann "kubectl.kubernetes.io/last-applied-configuration")))), (setO (popO (popO (popO (popO (popO md "creationTimestamp") "resourceVersion") "uid") "generation") "labels") "annotations" (.obj (popO ann "kubectl.kubernetes.io/last-applied-configuration"))), hrun.symm,
          ?_, ?_, ?_, ?_, ?_, ?_⟩
        · exact getO_setO_self _ _ _
        · intro k n1 n2 n3 n4 n5 n6
          rw [getO_setO_ne _ _ _ _ n6, getO_popO_ne _ _ _ n5, getO_popO_ne _ _ _ n4,
            getO_popO_ne _ _ _ n3, getO_popO_ne _ _ _ n2, getO_popO_ne _ _ _ n1]
        · intro hc
          rw [hc] at hann
          exact absurd hann (by simp)
        · intro ann0 hs
          rw [hann] at hs
          have haeq : ann = ann0 := by
            simpa using hs
          subst haeq
          refine ⟨popO ann "kubectl.kubernetes.io/last-applied-configuration",
            getO_setO_self _ _ _, ?_⟩
          intro k2 hk2
          exact getO_popO_ne _ _ _ hk2
        · rw [getO_setO_ne _ _ _ _ (by decide)]
          exact getO_setO_self _ _ _
        · intro k h1 h2
          rw [getO_setO_ne _ _ _ _ h1, getO_setO_ne _ _ _ _ h2,
            getO_setO_ne _ _ _ _ h2, getO_setO_ne _ _ _ _ h1]
    obtain ⟨X, md2, hm2, hXmd, hmdF, hannN2, hannS2, hXsp, hXfr⟩ := hstruct
    refine ⟨md2, popO (setO (setO sp "template" (.obj (setO tpl "spec" (.obj (setO ps "containers" (.arr (.obj c2 :: cs))))))) "template" (.obj (setO (setO tpl "spec" (.obj (setO ps "containers" (.arr (.obj c2 :: cs))))) "metadata" (.obj (popO tmd "labels"))))) "selector", (setO (setO tpl "spec" (.obj (setO ps "containers" (.arr (.obj c2 :: cs))))) "metadata" (.obj (popO tmd "labels"))), popO tmd "labels", (setO ps "containers" (.arr (.obj c2 :: cs))), c2,
      ?_, ?_, hmdF, ⟨hannN2, hannS2⟩, ?_, ?_, ?_, ?_, ?_, ?_, ?_, ?_, ?_, ?_, ?_⟩
    · intro k h1 h2 h3
      by_cases hk1 : k = "selector"
      · subst hk1
        rw [hm2, getO_popO_self]
        exact hnoSel.symm
      · by_cases hk2 : k = "matchLabels"
        · subst hk2
          rw [hm2, getO_popO_ne _ _ _ (by decide), getO_popO_self]
          exact hnoML.symm
        · rw [hm2, getO_popO_ne _ _ _ hk1, getO_popO_ne _ _ _ hk2,
            getO_popO_ne _ _ _ h3, hXfr k h1 h2, hmmEq, getO_setO_ne _ _ _ _ h2]
    · rw [hm2, getO_popO_ne _ _ _ (by decide), getO_popO_ne _ _ _ (by decide),
        getO_popO_ne _ _ _ (by decide)]
      exact hXmd
    · rw [hm2, getO_popO_ne _ _ _ (by decide), getO_popO_ne _ _ _ (by decide),
        getO_popO_ne _ _ _ (by decide)]
      exact hXsp
    · intro k h1 h2
      rw [getO_popO_ne _ _ _ h2, getO_setO_ne _ _ _ _ h1, getO_setO_ne _ _ _ _ h1]
    · rw [getO_popO_ne _ _ _ (by decide)]
      exact getO_setO_self _ _ _
    · intro k h1 h2
      rw [getO_setO_ne _ _ _ _ h1, getO_setO_ne _ _ _ _ h2]
    · exact getO_setO_self _ _ _
    · intro k h
      exact getO_popO_ne _ _ _ h
    · rw [getO_setO_ne _ _ _ _ (by decide)]
      exact getO_setO_self _ _ _
    · intro k h
      exact getO_setO_ne _ _ _ _ h
    · exact getO_setO_self _ _ _
    · intro k h1 h2
      rcases hc2 with hc2 | hup
      · rw [hc2, getO_setO_ne _ _ _ _ h1]
      · rw [upsertEnv_frame _ _ _ _ hup k h2, getO_setO_ne _ _ _ _ h1]
    · have hc1env : getO (setO c "image" (.str (setLatestTag img))) "env" =
          getO c "env" := getO_setO_ne _ _ _ _ (by decide)
      rcases hc2 with hc2 | hup
      · refine Or.inl ?_
        rw [hc2]
        exact hc1env
      · rcases upsertEnv_other_entries _ _ _ _ hup with he |
          ⟨envs, envs2, henvs, henvs2, hpres⟩
        · exact Or.inl (he.trans hc1env)
        · refine Or.inr ⟨envs, envs2, ?_, henvs2, hpres⟩
          rw [← hc1env]
          exact henvs

/-- Frame theorem for the replica-set-kind pipeline (sanitize then
resize) on a well-formed manifest: every key outside the documented
removal/mutation targets is preserved at every level, the whole
`spec.template` subtree apart from its metadata (in particular
`spec.template.spec.containers`) is untouched, and the volume-claim
template sequence keeps its length. -/
theorem sts_pipeline_frame
    (m md sp tpl tmd : Obj) (ts : List Val) (newSize : String)
    (hmd : getO m "metadata" = some (.obj md))
    (hsp : getO m "spec" = some (.obj sp))
    (htpl : getO sp "template" = some (.obj tpl))
    (htmd : getO tpl "metadata" = some (.obj tmd))
    (hvct : getO sp "volumeClaimTemplates" = some (.arr ts)) :
    ∃ md2 sp2 tpl2 tmd2 ts2,
      (∀ k, k ≠ "metadata" → k ≠ "spec" → k ≠ "status" →
        getO (update_persistent_volume_size (clean_manifest m) newSize).1 k =
          getO m k) ∧
      getO (update_persistent_volume_size (clean_manifest m) newSize).1
        "metadata" = some (.obj md2) ∧
      (∀ k, k ≠ "creationTimestamp" → k ≠ "resourceVersion" → k ≠ "uid" →
        k ≠ "generation" → k ≠ "managedFields" → k ≠ "annotations" →
        getO md2 k = getO md k) ∧
      getO (update_persistent_volume_size (clean_manifest m) newSize).1
        "spec" = some (.obj sp2) ∧
      (∀ k, k ≠ "template" → k ≠ "volumeClaimTemplates" →
        k ≠ "currentReplicas" → k ≠ "updatedReplicas" → k ≠ "readyReplicas" →
        k ≠ "availableReplicas" → k ≠ "observedGeneration" →
        k ≠ "collisionCount" → k ≠ "conditions" →
        getO sp2 k = getO sp k) ∧
      getO sp2 "template" = some (.obj tpl2) ∧
      (∀ k, k ≠ "metadata" → getO tpl2 k = getO tpl k) ∧
      getO tpl2 "metadata" = some (.obj tmd2) ∧
      (∀ k, k ≠ "creationTimestamp" → k ≠ "resourceVersion" → k ≠ "uid" →
        k ≠ "generation" → k ≠ "managedFields" → k ≠ "annotations" →
        getO tmd2 k = getO tmd k) ∧
      getO sp2 "volumeClaimTemplates" = some (.arr ts2) ∧
      ts2.length = ts.length := by
  have h1 : cleanStsMetadataStep m = (setO m "metadata" (.obj (cleanMetadataFields md))) :=
    cleanStsMetadataStep_obj m md hmd
  have hsp1 : getO (setO m "metadata" (.obj (cleanMetadataFields md))) "spec" = some (.obj sp) := by
    rw [getO_setO_ne _ _ _ _ (by decide)]
    exact hsp
  have h2 : cleanStsTemplateStep (setO m "metadata" (.obj (cleanMetadataFields md))) = (setO (setO m "metadata" (.obj (cleanMetadataFields md))) "spec" (.obj (tplFix sp))) :=
    cleanStsTemplateStep_obj _ sp hsp1
  have htf : tplFix sp = (setO sp "template" (.obj (setO tpl "metadata" (.obj (cleanMetadataFields tmd))))) := tplFix_obj sp tpl tmd htpl htmd
  have hsp2 : getO (setO (setO m "metadata" (.obj (cleanMetadataFields md))) "spec" (.obj (tplFix sp))) "spec" = some (.obj (tplFix sp)) := getO_setO_self _ _ _
  have h3 : cleanStsSpecStep (setO (setO m "metadata" (.obj (cleanMetadataFields md))) "spec" (.obj (tplFix sp))) = (setO (setO (setO m "metadata" (.obj (cleanMetadataFields md))) "spec" (.obj (tplFix sp))) "spec" (.obj (popSpecStatusFields (tplFix sp)))) :=
    cleanStsSpecStep_obj _ _ hsp2
  have hcm : clean_manifest m = (popO (setO (setO (setO m "metadata" (.obj (cleanMetadataFields md))) "spec" (.obj (tplFix sp))) "spec" (.obj (popSpecStatusFields (tplFix sp)))) "status") := by
    rw [clean_manifest, h1, h2, h3]
  have hspCL : getO (popO (setO (setO (setO m "metadata" (.obj (cleanMetadataFields md))) "spec" (.obj (tplFix sp))) "spec" (.obj (popSpecStatusFields (tplFix sp)))) "status") "spec" =
      some (.obj (popSpecStatusFields (tplFix sp))) := by
    rw [getO_popO_ne _ _ _ (by decide)]
    exact getO_setO_self _ _ _
  have hvctC : getO (popSpecStatusFields (tplFix sp)) "volumeClaimTemplates" =
      some (.arr ts) := by
    rw [getO_popSpecStatusFields_ne _ _ (by decide) (by decide) (by decide)
      (by decide) (by decide) (by decide) (by decide), htf,
      getO_setO_ne _ _ _ _ (by decide)]
    exact hvct
  have hup : (update_persistent_volume_size (clean_manifest m) newSize).1 =
      setO (popO (setO (setO (setO m "metadata" (.obj (cleanMetadataFields md))) "spec" (.obj (tplFix sp))) "spec" (.obj (popSpecStatusFields (tplFix sp)))) "status") "spec" (.obj (setO (popSpecStatusFields (tplFix sp)) "volumeClaimTemplates" (.arr (ts.map (resizeTemplate newSize))))) := by
    rw [hcm]
    simp only [update_persistent_volume_size, hspCL, hvctC]
  refine ⟨cleanMetadataFields md, (setO (popSpecStatusFields (tplFix sp)) "volumeClaimTemplates" (.arr (ts.map (resizeTemplate newSize)))),
    setO tpl "metadata" (.obj (cleanMetadataFields tmd)), cleanMetadataFields tmd,
    ts.map (resizeTemplate newSize), ?_, ?_, ?_, ?_, ?_, ?_, ?_, ?_, ?_, ?_, ?_⟩
  · intro k hk1 hk2 hk3
    rw [hup, getO_setO_ne _ _ _ _ hk2, getO_popO_ne _ _ _ hk3,
      getO_setO_ne _ _ _ _ hk2, getO_setO_ne _ _ _ _ hk2,
      getO_setO_ne _ _ _ _ hk1]
  · rw [hup, getO_setO_ne _ _ _ _ (by decide), getO_popO_ne _ _ _ (by decide),
      getO_setO_ne _ _ _ _ (by decide), getO_setO_ne _ _ _ _ (by decide)]
    exact getO_setO_self _ _ _
  · intro k n1 n2 n3 n4 n5 n6
    exact cleanMetadataFields_frame md k n1 n2 n3 n4 n5 n6
  · rw [hup]
    exact getO_setO_self _ _ _
  · intro k hk1 hk2 n1 n2 n3 n4 n5 n6 n7
    rw [getO_setO_ne _ _ _ _ hk2,
      getO_popSpecStatusFields_ne _ _ n1 n2 n3 n4 n5 n6 n7, htf,
      getO_setO_ne _ _ _ _ hk1]
  · rw [getO_setO_ne _ _ _ _ (by decide),
      getO_popSpecStatusFields_ne _ _ (by decide) (by decide) (by decide)
        (by decide) (by decide) (by decide) (by decide), htf]
    exact getO_setO_self _ _ _
  · intro k hk
    exact getO_setO_ne _ _ _ _ hk
  · exact getO_setO_self _ _ _
  · intro k n1 n2 n3 n4 n5 n6
    exact cleanMetadataFields_frame tmd k n1 n2 n3 n4 n5 n6
  · exact getO_setO_self _ _ _
  · exact List.length_map ts _

/-- Claim C6: for every well-formed descriptor, the sanitize+mutate
pipeline never removes `spec.template.spec.containers` and alters no
field other than the documented sanitization removals and the requested
mutation targets (the image tag, the named env entry, volume-claim
storage sizes): every other key at every level of the descriptor keeps
its value.  First conjunct: the job-kind pipeline (update_job_manifest);
second conjunct: the replica-set-kind pipeline (clean_manifest followed
by update_persistent_volume_size). -/
theorem c6_pipeline_frame :
    (∀ (m md sp tpl tmd ps c : Obj) (cs : List Val) (img : String)
       (envN envV : Option String) (m2 : Obj),
       getO m "metadata" = some (.obj md) →
       getO m "spec" = some (.obj sp) →
       getO sp "template" = some (.obj tpl) →
       getO tpl "metadata" = some (.obj tmd) →
       getO tpl "spec" = some (.obj ps) →
       getO ps "containers" = some (.arr (.obj c :: cs)) →
       getO c "image" = some (.str img) →
       (getO md "annotations" = none ∨
         ∃ ann, getO md "annotations" = some (.obj ann)) →
       getO m "matchLabels" = none →
       getO m "selector" = none →
       update_job_manifest m envN envV = .ok m2 →
       ∃ md2 sp2 tpl2 tmd2 ps2 c2,
      (∀ k, k ≠ "metadata" → k ≠ "spec" → k ≠ "status" →
        getO m2 k = getO m k) ∧
      getO m2 "metadata" = some (.obj md2) ∧
      (∀ k, k ≠ "creationTimestamp" → k ≠ "resourceVersion" → k ≠ "uid" →
        k ≠ "generation" → k ≠ "labels" → k ≠ "annotations" →
        getO md2 k = getO md k) ∧
      ((getO md "annotations" = none → getO md2 "annotations" = none) ∧
       (∀ ann0, getO md "annotations" = some (.obj ann0) →
         ∃ ann2, getO md2 "annotations" = some (.obj ann2) ∧
           ∀ k2, k2 ≠ "kubectl.kubernetes.io/last-applied-configuration" →
             getO ann2 k2 = getO ann0 k2)) ∧
      getO m2 "spec" = some (.obj sp2) ∧
      (∀ k, k ≠ "template" → k ≠ "selector" → getO sp2 k = getO sp k) ∧
      getO sp2 "template" = some (.obj tpl2) ∧
      (∀ k, k ≠ "metadata" → k ≠ "spec" → getO tpl2 k = getO tpl k) ∧
      getO tpl2 "metadata" = some (.obj tmd2) ∧
      (∀ k, k ≠ "labels" → getO tmd2 k = getO tmd k) ∧
      getO tpl2 "spec" = some (.obj ps2) ∧
      (∀ k, k ≠ "containers" → getO ps2 k = getO ps k) ∧
      getO ps2 "containers" = some (.arr (.obj c2 :: cs)) ∧
      (∀ k, k ≠ "image" → k ≠ "env" → getO c2 k = getO c k) ∧
      (getO c2 "env" = getO c "env" ∨
        (∃ envs envs2, getO c "env" = some (.arr envs) ∧
          getO c2 "env" = some (.arr envs2) ∧
          ∀ (i : Nat) (y : Val), envs[i]? = some y →
            (∀ e2, y = .obj e2 → getO e2 "name" ≠ some (.str (Option.getD envN ""))) →
            envs2[i]? = some y))) ∧
    (∀ (m md sp tpl tmd : Obj) (ts : List Val) (newSize : String),
       getO m "metadata" = some (.obj md) →
       getO m "spec" = some (.obj sp) →
       getO sp "template" = some (.obj tpl) →
       getO tpl "metadata" = some (.obj tmd) →
       getO sp "volumeClaimTemplates" = some (.arr ts) →
       ∃ md2 sp2 tpl2 tmd2 ts2,
      (∀ k, k ≠ "metadata" → k ≠ "spec" → k ≠ "status" →
        getO (update_persistent_volume_size (clean_manifest m) newSize).1 k = getO m k) ∧
      getO (update_persistent_volume_size (clean_manifest m) newSize).1 "metadata" = some (.obj md2) ∧
      (∀ k, k ≠ "creationTimestamp" → k ≠ "resourceVersion" → k ≠ "uid" →
        k ≠ "generation" → k ≠ "managedFields" → k ≠ "annotations" →
        getO md2 k = getO md k) ∧
      getO (update_persistent_volume_size (clean_manifest m) newSize).1 "spec" = some (.obj sp2) ∧
      (∀ k, k ≠ "template" → k ≠ "volumeClaimTemplates" →
        k ≠ "currentReplicas" → k ≠ "updatedReplicas" → k ≠ "readyReplicas" →
        k ≠ "availableReplicas" → k ≠ "observedGeneration" →
        k ≠ "collisionCount" → k ≠ "conditions" →
        getO sp2 k = getO sp k) ∧
      getO sp2 "template" = some (.obj tpl2) ∧
      (∀ k, k ≠ "metadata" → getO tpl2 k = getO tpl k) ∧
      getO tpl2 "metadata" = some (.obj tmd2) ∧
      (∀ k, k ≠ "creationTimestamp" → k ≠ "resourceVersion" → k ≠ "uid" →
        k ≠ "generation" → k ≠ "managedFields" → k ≠ "annotations" →
        getO tmd2 k = getO tmd k) ∧
      getO sp2 "volumeClaimTemplates" = some (.arr ts2) ∧
      ts2.length = ts.length) :=
  ⟨fun m md sp tpl tmd ps c cs img envN envV m2 h1 h2 h3 h4 h5 h6 h7 h8 h9 h10 h11 =>
      update_job_manifest_frame m md sp tpl tmd ps c cs img envN envV m2
        h1 h2 h3 h4 h5 h6 h7 h8 h9 h10 h11,
   fun m md sp tpl tmd ts newSize h1 h2 h3 h4 h5 =>
      sts_pipeline_frame m md sp tpl tmd ts newSize h1 h2 h3 h4 h5⟩

def c6JobMd : Obj := [("name", .str "j")]

def c6JobTmd : Obj := [("app", .str "x")]

def c6JobC : Obj := [("image", .str "img:v1"), ("name", .str "c0")]

def c6JobPs : Obj := [("containers", .arr [.obj c6JobC])]

def c6JobTpl : Obj := [("metadata", .obj c6JobTmd), ("spec", .obj c6JobPs)]

def c6JobSp : Obj := [("backoffLimit", .int 4), ("template", .obj c6JobTpl)]

def c6JobManifest : Obj :=
  [("apiVersion", .str "batch/v1"), ("metadata", .obj c6JobMd),
   ("spec", .obj c6JobSp)]

def c6JobOut : Obj :=
  [("apiVersion", .str "batch/v1"), ("metadata", .obj c6JobMd),
   ("spec", .obj [("backoffLimit", .int 4), ("template", .obj
     [("metadata", .obj c6JobTmd), ("spec", .obj [("containers",
       .arr [.obj [("image", .str "img:latest"), ("name", .str "c0")]])])])])]

def c6StsTmd : Obj := [("x", .str "y")]

def c6StsPs : Obj := [("containers", .arr [.obj [("image", .str "db:1")]])]

def c6StsTpl : Obj := [("metadata", .obj c6StsTmd), ("spec", .obj c6StsPs)]

def c6StsVct : List Val :=
  [.obj [("spec", .obj [("resources", .obj
    [("requests", .obj [("storage", .str "50Gi")])])])]]

def c6StsMd : Obj := [("name", .str "db")]

def c6StsSp : Obj :=
  [("serviceName", .str "db"), ("template", .obj c6StsTpl),
   ("volumeClaimTemplates", .arr c6StsVct)]

def c6StsManifest : Obj :=
  [("apiVersion", .str "apps/v1"), ("metadata", .obj c6StsMd),
   ("spec", .obj c6StsSp)]

/-- Witness for claim C6 at concrete job and replica-set manifests. -/
theorem c6_witness :
    (∃ md2 sp2 tpl2 tmd2 ps2 c2,
      (∀ k, k ≠ "metadata" → k ≠ "spec" → k ≠ "status" →
        getO c6JobOut k = getO c6JobManifest k) ∧
      getO c6JobOut "metadata" = some (.obj md2) ∧
      (∀ k, k ≠ "creationTimestamp" → k ≠ "resourceVersion" → k ≠ "uid" →
        k ≠ "generation" → k ≠ "labels" → k ≠ "annotations" →
        getO md2 k = getO c6JobMd k) ∧
      ((getO c6JobMd "annotations" = none → getO md2 "annotations" = none) ∧
       (∀ ann0, getO c6JobMd "annotations" = some (.obj ann0) →
         ∃ ann2, getO md2 "annotations" = some (.obj ann2) ∧
           ∀ k2, k2 ≠ "kubectl.kubernetes.io/last-applied-configuration" →
             getO ann2 k2 = getO ann0 k2)) ∧
      getO c6JobOut "spec" = some (.obj sp2) ∧
      (∀ k, k ≠ "template" → k ≠ "selector" → getO sp2 k = getO c6JobSp k) ∧
      getO sp2 "template" = some (.obj tpl2) ∧
      (∀ k, k ≠ "metadata" → k ≠ "spec" → getO tpl2 k = getO c6JobTpl k) ∧
      getO tpl2 "metadata" = some (.obj tmd2) ∧
      (∀ k, k ≠ "labels" → getO tmd2 k = getO c6JobTmd k) ∧
      getO tpl2 "spec" = some (.obj ps2) ∧
      (∀ k, k ≠ "containers" → getO ps2 k = getO c6JobPs k) ∧
      getO ps2 "containers" = some (.arr (.obj c2 :: ([] : List Val))) ∧
      (∀ k, k ≠ "image" → k ≠ "env" → getO c2 k = getO c6JobC k) ∧
      (getO c2 "env" = getO c6JobC "env" ∨
        (∃ envs envs2, getO c6JobC "env" = some (.arr envs) ∧
          getO c2 "env" = some (.arr envs2) ∧
          ∀ (i : Nat) (y : Val), envs[i]? = some y →
            (∀ e2, y = .obj e2 → getO e2 "name" ≠ some (.str (Option.getD none ""))) →
            envs2[i]? = some y))) ∧
    (∃ md2 sp2 tpl2 tmd2 ts2,
      (∀ k, k ≠ "metadata" → k ≠ "spec" → k ≠ "status" →
        getO (update_persistent_volume_size (clean_manifest c6StsManifest) "100Gi").1 k = getO c6StsManifest k) ∧
      getO (update_persistent_volume_size (clean_manifest c6StsManifest) "100Gi").1 "metadata" = some (.obj md2) ∧
      (∀ k, k ≠ "creationTimestamp" → k ≠ "resourceVersion" → k ≠ "uid" →
        k ≠ "generation" → k ≠ "managedFields" → k ≠ "annotations" →
        getO md2 k = getO c6StsMd k) ∧
      getO (update_persistent_volume_size (clean_manifest c6StsManifest) "100Gi").1 "spec" = some (.obj sp2) ∧
      (∀ k, k ≠ "template" → k ≠ "volumeClaimTemplates" →
        k ≠ "currentReplicas" → k ≠ "updatedReplicas" → k ≠ "readyReplicas" →
        k ≠ "availableReplicas" → k ≠ "observedGeneration" →
        k ≠ "collisionCount" → k ≠ "conditions" →
        getO sp2 k = getO c6StsSp k) ∧
      getO sp2 "template" = some (.obj tpl2) ∧
      (∀ k, k ≠ "metadata" → getO tpl2 k = getO c6StsTpl k) ∧
      getO tpl2 "metadata" = some (.obj tmd2) ∧
      (∀ k, k ≠ "creationTimestamp" → k ≠ "resourceVersion" → k ≠ "uid" →
        k ≠ "generation" → k ≠ "managedFields" → k ≠ "annotations" →
        getO tmd2 k = getO c6StsTmd k) ∧
      getO sp2 "volumeClaimTemplates" = some (.arr ts2) ∧
      ts2.length = c6StsVct.length) :=
  ⟨c6_pipeline_frame.1 c6JobManifest c6JobMd c6JobSp c6JobTpl c6JobTmd c6JobPs
      c6JobC [] "img:v1" none none c6JobOut rfl rfl rfl rfl rfl rfl rfl
      (Or.inl rfl) rfl rfl rfl,
   c6_pipeline_frame.2 c6StsManifest c6StsMd c6StsSp c6StsTpl c6StsTmd c6StsVct
      "100Gi" rfl rfl rfl rfl rfl⟩

end K8s







